import Mathlib

/-!
Verification development for the online-timer backend (`src/server.js`).

The server keeps, in process memory, a registry of countdown timers, a
session-to-timer map, a controller-to-owned-timers index and a
controller-to-sessions index, and reacts to socket commands
(create / join / view / get-timers / delete / set / start / pause / reset /
adjust / message / styling / flash / disconnect) plus the one-second tick of
each running timer.

This file is a shallow embedding of that code.  Conventions:

* JavaScript `Map`s become association lists (`List (String × α)`), with
  `mapGet` / `mapSet` / `mapDelete` mirroring `get` / `set` / `delete`;
  `mapSet` replaces in place, keeping insertion order like a JS `Map`.
* JavaScript `Set`s of socket ids become `List String` with `setAdd`
  (append if absent, like `Set.add`) and removal by `filter`
  (like `Set.delete`); `size` is the list length.
* Clock values (`Date.now()`) are integers in milliseconds; the elapsed
  computation `Math.floor((now - startTime) / 1000)` is `Int.fdiv`
  (floor division), faithful to `Math.floor` for every sign.
* `setInterval` / `clearInterval` are modelled by a Boolean `interval`
  field (a tick source is scheduled) plus an explicit `tick` command that
  fires only while the flag is set.
* Socket emissions become an explicit list of outbound messages
  (`OutMsg`), in program order.  The `io.sockets.sockets.get(deviceId)`
  liveness lookup in `update()` / the notification loops is modelled as
  succeeding: the transport is assumed to deliver a `disconnect` event for
  every terminated session (the spec excludes the transport), so every id
  recorded in the state denotes a live channel and the stale-eviction
  branch of `update()` never fires.
* Mutation of a shared `Timer` object becomes writing the updated timer
  back into the registry at its key.
* The non-deterministic `generateId()` becomes an explicit id carried by
  the `create-timer` command; reachability (`Reachable`) requires it to be
  fresh, which is what `generateId` guarantees.
-/

namespace OnlineTimer

/-! ## Association-list maps (JS `Map`) and sets (JS `Set`) -/

def mapGet {α : Type} (m : List (String × α)) (k : String) : Option α :=
  match m with
  | [] => none
  | p :: rest => if p.1 = k then some p.2 else mapGet rest k

def mapSet {α : Type} (m : List (String × α)) (k : String) (v : α) :
    List (String × α) :=
  match m with
  | [] => [(k, v)]
  | p :: rest => if p.1 = k then (k, v) :: rest else p :: mapSet rest k v

def mapDelete {α : Type} (m : List (String × α)) (k : String) :
    List (String × α) :=
  match m with
  | [] => []
  | p :: rest => if p.1 = k then mapDelete rest k else p :: mapDelete rest k

def setAdd (xs : List String) (x : String) : List String :=
  if x ∈ xs then xs else xs ++ [x]

theorem mapGet_mapSet_self {α : Type} (m : List (String × α)) (k : String) (v : α) :
    mapGet (mapSet m k v) k = some v := by
  induction m with
  | nil => simp [mapSet, mapGet]
  | cons p rest ih =>
    by_cases hp : p.1 = k
    · simp [mapSet, mapGet, hp]
    · simp [mapSet, mapGet, hp, ih]

theorem mapGet_mapSet_ne {α : Type} (m : List (String × α)) {k k' : String}
    (v : α) (h : k' ≠ k) : mapGet (mapSet m k v) k' = mapGet m k' := by
  have h' : k ≠ k' := Ne.symm h
  induction m with
  | nil => simp [mapSet, mapGet, h']
  | cons p rest ih =>
    by_cases hp : p.1 = k
    · simp [mapSet, mapGet, hp, h']
    · simp [mapSet, mapGet, hp, ih]

theorem mapGet_mapDelete_self {α : Type} (m : List (String × α)) (k : String) :
    mapGet (mapDelete m k) k = none := by
  induction m with
  | nil => simp [mapDelete, mapGet]
  | cons p rest ih =>
    by_cases hp : p.1 = k
    · simp [mapDelete, hp, ih]
    · simp [mapDelete, mapGet, hp, ih]

theorem mapGet_mapDelete_ne {α : Type} (m : List (String × α)) {k k' : String}
    (h : k' ≠ k) : mapGet (mapDelete m k) k' = mapGet m k' := by
  induction m with
  | nil => simp [mapDelete]
  | cons p rest ih =>
    by_cases hp : p.1 = k
    · simp [mapDelete, mapGet, hp, ih, Ne.symm h]
    · simp [mapDelete, mapGet, hp, ih]

theorem mem_mapSet {α : Type} {m : List (String × α)} {k : String} {v : α}
    {p : String × α} (hp : p ∈ mapSet m k v) : p = (k, v) ∨ p ∈ m := by
  induction m with
  | nil => simpa [mapSet] using hp
  | cons q rest ih =>
    by_cases hq : q.1 = k
    · simp only [mapSet, hq, if_pos, List.mem_cons] at hp
      rcases hp with h | h
      · exact Or.inl h
      · exact Or.inr (List.mem_cons_of_mem _ h)
    · simp only [mapSet, hq, if_neg, not_false_iff, List.mem_cons] at hp
      rcases hp with h | h
      · exact Or.inr (by simp [h])
      · rcases ih h with h' | h'
        · exact Or.inl h'
        · exact Or.inr (List.mem_cons_of_mem _ h')

theorem mem_mapDelete {α : Type} {m : List (String × α)} {k : String}
    {p : String × α} (hp : p ∈ mapDelete m k) : p ∈ m := by
  induction m with
  | nil => simp [mapDelete] at hp
  | cons q rest ih =>
    by_cases hq : q.1 = k
    · simp only [mapDelete, hq, if_pos] at hp
      exact List.mem_cons_of_mem _ (ih hp)
    · simp only [mapDelete, hq, if_neg, not_false_iff, List.mem_cons] at hp
      rcases hp with h | h
      · simp [h]
      · exact List.mem_cons_of_mem _ (ih h)

theorem mapGet_mem {α : Type} {m : List (String × α)} {k : String} {v : α}
    (h : mapGet m k = some v) : (k, v) ∈ m := by
  induction m with
  | nil => simp [mapGet] at h
  | cons p rest ih =>
    by_cases hp : p.1 = k
    · have hv : p.2 = v := by
        simp only [mapGet, hp, if_pos, Option.some.injEq] at h
        exact h
      have hpk : p = (k, v) := Prod.ext hp hv
      exact List.mem_cons.mpr (Or.inl hpk.symm)
    · simp only [mapGet, hp, if_neg, not_false_iff] at h
      exact List.mem_cons_of_mem _ (ih h)

theorem mem_setAdd {xs : List String} {x y : String} (h : y ∈ setAdd xs x) :
    y = x ∨ y ∈ xs := by
  unfold setAdd at h
  by_cases hx : x ∈ xs
  · simp [hx] at h; exact Or.inr h
  · simp [hx] at h
    rcases h with h | h
    · exact Or.inr h
    · exact Or.inl h

theorem length_setAdd_le (xs : List String) (x : String) :
    (setAdd xs x).length ≤ xs.length + 1 := by
  unfold setAdd
  by_cases hx : x ∈ xs <;> simp [hx]

/-! ## The Timer entity (class `Timer` in `server.js`) -/

/-- One timer, field for field the JS `Timer` instance.  `startTime` is
`null` (`none`) while not running; `interval` records whether a
`setInterval` tick source is currently scheduled; `controllerId` is `null`
(`none`) until the `create-timer` handler assigns the owner. -/
structure Timer where
  id : String
  name : String
  duration : Int
  originalDuration : Int
  remaining : Int
  isRunning : Bool
  maxConnectionsAllowed : Int
  maxTimersAllowed : Int
  startTime : Option Int
  message : String
  backgroundColor : String
  textColor : String
  fontSize : String
  isFlashing : Bool
  connectedDevices : List String
  interval : Bool
  controllerId : Option String
  timerView : String
deriving Repr, DecidableEq

/-- The JS constructor `new Timer(id, name, duration, maxConnectionsAllowed,
maxTimersAllowed)`; the two limits use `?? 4` / `?? 3` defaults. -/
def Timer.new (id name : String) (duration : Int)
    (maxConnectionsAllowed maxTimersAllowed : Option Int) : Timer where
  id := id
  name := name
  duration := duration
  originalDuration := duration
  remaining := duration
  isRunning := false
  maxConnectionsAllowed := maxConnectionsAllowed.getD 4
  maxTimersAllowed := maxTimersAllowed.getD 3
  startTime := none
  message := ""
  backgroundColor := "#1f2937"
  textColor := "#ffffff"
  fontSize := "text-6xl"
  isFlashing := false
  connectedDevices := []
  interval := false
  controllerId := none
  timerView := "normal"

/-- The object returned by `Timer.getState()`. -/
structure TimerSnapshot where
  id : String
  name : String
  duration : Int
  remaining : Int
  isRunning : Bool
  message : String
  backgroundColor : String
  textColor : String
  fontSize : String
  isFlashing : Bool
  connectedCount : Nat
  stylingBackgroundColor : String
  stylingTextColor : String
  stylingFontSize : String
  stylingTimerView : String
deriving Repr, DecidableEq

/-- `Timer.getState()`: the full externally visible state; `styling.timerView`
is `this.timerView || "normal"` (JS `||`: the empty string falls back). -/
def Timer.getState (t : Timer) : TimerSnapshot where
  id := t.id
  name := t.name
  duration := t.duration
  remaining := t.remaining
  isRunning := t.isRunning
  message := t.message
  backgroundColor := t.backgroundColor
  textColor := t.textColor
  fontSize := t.fontSize
  isFlashing := t.isFlashing
  connectedCount := t.connectedDevices.length
  stylingBackgroundColor := t.backgroundColor
  stylingTextColor := t.textColor
  stylingFontSize := t.fontSize
  stylingTimerView := if t.timerView = "" then "normal" else t.timerView

/-- The one entry in the timer-list sent by `getTimersForController`. -/
structure TimerSummary where
  id : String
  name : String
  duration : Int
  connectedCount : Nat
deriving Repr, DecidableEq

/-- Outbound socket emissions, tagged with the target socket id. -/
inductive OutMsg where
  | timerUpdate (target : String) (st : TimerSnapshot)
  | timerJoined (target : String) (st : TimerSnapshot)
  | timerList (target : String) (l : List TimerSummary)
  | timerNotFound (target : String) (timerId : String)
  | timerFull (target : String) (timerId failedSocketId : String) (isgood : Bool)
  | timerCreated (target : String) (st : TimerSnapshot)
  | timerDeleted (target : String) (timerId : String)
  | limitExceeded (target : String) (timerId : Option String) (ty msg : String)
deriving Repr, DecidableEq

/-- `Timer.update()`: while running with a start time, recompute
`remaining = duration - Math.floor((now - startTime) / 1000)`, then emit a
`timer-update` snapshot to every connected device (every recorded device is
a live channel under the modelling assumption, so the stale-eviction branch
does not fire). -/
def Timer.update (t : Timer) (now : Int) : Timer × List OutMsg :=
  let t' :=
    match t.startTime with
    | some st => if t.isRunning then
        { t with remaining := t.duration - Int.fdiv (now - st) 1000 }
      else t
    | none => t
  (t', t'.connectedDevices.map fun d => OutMsg.timerUpdate d t'.getState)

/-- `Timer.start()`: a no-op unless `!isRunning && remaining > 0`; otherwise
set the flag and the start time, schedule the tick source, and emit. -/
def Timer.start (t : Timer) (now : Int) : Timer × List OutMsg :=
  if !t.isRunning && t.remaining > 0 then
    Timer.update { t with isRunning := true, startTime := some now, interval := true } now
  else (t, [])

/-- `Timer.pause()`: only while running; `remaining = duration - elapsed`,
`duration = Math.abs(remaining)`, cancel the tick, emit.  (`startTime` is
non-null whenever `isRunning`; `getD 0` stands for the never-taken `null`
case.) -/
def Timer.pause (t : Timer) (now : Int) : Timer × List OutMsg :=
  if t.isRunning then
    let elapsed := Int.fdiv (now - t.startTime.getD 0) 1000
    let r := t.duration - elapsed
    Timer.update
      { t with isRunning := false, remaining := r, duration := (r.natAbs : Int),
               interval := false } now
  else (t, [])

/-- `Timer.reset()`: stop, restore `duration` and `remaining` to
`originalDuration`, clear the start time, cancel the tick, emit. -/
def Timer.reset (t : Timer) (now : Int) : Timer × List OutMsg :=
  Timer.update
    { t with isRunning := false, duration := t.originalDuration,
             remaining := t.originalDuration, startTime := none,
             interval := false } now

/-- `Timer.setDuration(duration)`: overwrite `duration`, `originalDuration`
and `remaining`, stop, cancel the tick, emit. -/
def Timer.setDuration (t : Timer) (d : Int) (now : Int) : Timer × List OutMsg :=
  Timer.update
    { t with duration := d, originalDuration := d, remaining := d,
             isRunning := false, startTime := none, interval := false } now

/-- `Timer.adjustTime(seconds)`: `newDuration = Math.max(0, duration +
seconds)`; while running, recompute `remaining` against the elapsed time and
stop if it hits zero; otherwise delegate to `setDuration(newDuration)`. -/
def Timer.adjustTime (t : Timer) (seconds : Int) (now : Int) :
    Timer × List OutMsg :=
  let newDuration := max 0 (t.duration + seconds)
  if t.isRunning then
    let elapsed := Int.fdiv (now - t.startTime.getD 0) 1000
    let t' := { t with duration := newDuration,
                       remaining := max 0 (newDuration - elapsed) }
    let t' :=
      if t'.remaining ≤ 0 then
        { t' with isRunning := false, interval := false, startTime := none }
      else t'
    Timer.update t' now
  else
    Timer.setDuration t newDuration now

/-- `Timer.addDevice(deviceId)`: admit only while strictly below
`maxConnectionsAllowed`; on success add (a JS `Set.add`, idempotent) and
emit; the Boolean is the JS return value. -/
def Timer.addDevice (t : Timer) (d : String) (now : Int) :
    Timer × Bool × List OutMsg :=
  if (t.connectedDevices.length : Int) < t.maxConnectionsAllowed then
    let (t', msgs) := Timer.update { t with connectedDevices := setAdd t.connectedDevices d } now
    (t', true, msgs)
  else (t, false, [])

/-- `Timer.removeDevice(deviceId)`: unconditional removal, then emit. -/
def Timer.removeDevice (t : Timer) (d : String) (now : Int) :
    Timer × List OutMsg :=
  Timer.update { t with connectedDevices := t.connectedDevices.filter (· != d) } now

/-- `Timer.updateMessage(message)`. -/
def Timer.updateMessage (t : Timer) (m : String) (now : Int) :
    Timer × List OutMsg :=
  Timer.update { t with message := m } now

/-- `Timer.clearMessage()`. -/
def Timer.clearMessage (t : Timer) (now : Int) : Timer × List OutMsg :=
  Timer.update { t with message := "" } now

/-- The styling payload of `update-styling` / `create-timer`: each field may
be absent; `none` also stands for a falsy (empty-string) value, matching the
JS `styling.x || this.x` fallback. -/
structure StylingPayload where
  backgroundColor : Option String
  textColor : Option String
  fontSize : Option String
  timerView : Option String
deriving Repr, DecidableEq

/-- The JS `a || b` fallback on strings: an absent or empty field keeps the
default. -/
def jsOr (v : Option String) (dflt : String) : String :=
  match v with
  | some s => if s = "" then dflt else s
  | none => dflt

/-- `Timer.updateStyling(styling)`: merge only the supplied (truthy)
fields. -/
def Timer.updateStyling (t : Timer) (p : StylingPayload) (now : Int) :
    Timer × List OutMsg :=
  Timer.update
    { t with backgroundColor := jsOr p.backgroundColor t.backgroundColor,
             textColor := jsOr p.textColor t.textColor,
             fontSize := jsOr p.fontSize t.fontSize,
             timerView := jsOr p.timerView t.timerView } now

/-- `Timer.toggleFlash(isFlashing)`. -/
def Timer.toggleFlash (t : Timer) (b : Bool) (now : Int) : Timer × List OutMsg :=
  Timer.update { t with isFlashing := b } now

/-! ## Global server state (the module-level `Map`s) and the event router -/

/-- The four module-level registries of `server.js`. -/
structure ServerState where
  timers : List (String × Timer)
  deviceToTimer : List (String × String)
  controllerTimers : List (String × List String)
  controllerToSocket : List (String × List String)
deriving Repr, DecidableEq

/-- The state at process start: every registry empty. -/
def initState : ServerState where
  timers := []
  deviceToTimer := []
  controllerTimers := []
  controllerToSocket := []

/-- `getTimersForController(controllerId)`: the owned ids resolved against
the registry; entries whose timer is gone are dropped (`filter(Boolean)`). -/
def getTimersForController (s : ServerState) (cid : String) : List TimerSummary :=
  ((mapGet s.controllerTimers cid).getD []).filterMap fun id =>
    match mapGet s.timers id with
    | none => none
    | some t => some ⟨t.id, t.name, t.duration, t.connectedDevices.length⟩

/-- `emitTimerListForController(socket, controllerId)`. -/
def timerListMsg (s : ServerState) (sid cid : String) : OutMsg :=
  OutMsg.timerList sid (getTimersForController s cid)

/-- The message text of the viewer-capacity `limit-exceeded` notification
(the `join-timer` wording; `view-timer` prints `max - 1`). -/
def viewerLimitMsg (shown : Int) : String :=
  "You\x27ve reached the maximum number of viewers (" ++ toString shown ++
    ") for your plan. Upgrade to allow more viewers."

/-- The message text of the timer-quota `limit-exceeded` notification. -/
def timerLimitMsg (maxTimers : Int) : String :=
  "You\x27ve reached the maximum number of timers (" ++ toString maxTimers ++
    ") for your plan. Upgrade to create more timers."

/-- The `join-timer` handler: requires a truthy `controllerId`; looks the
timer up; overwrites `maxConnectionsAllowed` with the supplied value when
present; attempts `addDevice`.  On success it records the session in
`deviceToTimer` and tracks it in `controllerToSocket` under the supplied
controller id, emits `timer-joined`, and refreshes the list only when the
supplied id owns the timer.  On failure it emits `timer-full` to the
requester and `limit-exceeded{type:"viewers"}` to every session tracked
under the timer's owner controller. -/
def handleJoinTimer (s : ServerState) (sid timerId cid : String)
    (maxConn : Option Int) (now : Int) : ServerState × List OutMsg :=
  if cid = "" then (s, []) else
  match mapGet s.timers timerId with
  | none => (s, [OutMsg.timerNotFound sid timerId])
  | some timer0 =>
    let timer1 := { timer0 with maxConnectionsAllowed := maxConn.getD timer0.maxConnectionsAllowed }
    let (timer2, wasAdded, addMsgs) := Timer.addDevice timer1 sid now
    let s1 := { s with timers := mapSet s.timers timerId timer2 }
    if wasAdded then
      let s2 := { s1 with
        deviceToTimer := mapSet s1.deviceToTimer sid timerId,
        controllerToSocket := mapSet s1.controllerToSocket cid
          (setAdd ((mapGet s1.controllerToSocket cid).getD []) sid) }
      let listMsgs :=
        if timer2.controllerId = some cid then [timerListMsg s2 sid cid] else []
      (s2, addMsgs ++ [OutMsg.timerJoined sid timer2.getState] ++ listMsgs)
    else
      let ownerTracked :=
        match timer2.controllerId with
        | some oc => (mapGet s1.controllerToSocket oc).getD []
        | none => []
      let limitMsgs := ownerTracked.map fun csid =>
        OutMsg.limitExceeded csid (some timerId) "viewers"
          (viewerLimitMsg timer2.maxConnectionsAllowed)
      (s1, addMsgs ++ [OutMsg.timerFull sid timerId sid false] ++ limitMsgs)

/-- The `view-timer` handler: identical to `join-timer` except that success
emits no owner-scoped list refresh, `timer-full` carries `isgood: true`,
and the notification text prints `maxConnectionsAllowed - 1`. -/
def handleViewTimer (s : ServerState) (sid timerId cid : String)
    (maxConn : Option Int) (now : Int) : ServerState × List OutMsg :=
  if cid = "" then (s, []) else
  match mapGet s.timers timerId with
  | none => (s, [OutMsg.timerNotFound sid timerId])
  | some timer0 =>
    let timer1 := { timer0 with maxConnectionsAllowed := maxConn.getD timer0.maxConnectionsAllowed }
    let (timer2, wasAdded, addMsgs) := Timer.addDevice timer1 sid now
    let s1 := { s with timers := mapSet s.timers timerId timer2 }
    if wasAdded then
      let s2 := { s1 with
        deviceToTimer := mapSet s1.deviceToTimer sid timerId,
        controllerToSocket := mapSet s1.controllerToSocket cid
          (setAdd ((mapGet s1.controllerToSocket cid).getD []) sid) }
      (s2, addMsgs ++ [OutMsg.timerJoined sid timer2.getState])
    else
      let ownerTracked :=
        match timer2.controllerId with
        | some oc => (mapGet s1.controllerToSocket oc).getD []
        | none => []
      let limitMsgs := ownerTracked.map fun csid =>
        OutMsg.limitExceeded csid (some timerId) "viewers"
          (viewerLimitMsg (timer2.maxConnectionsAllowed - 1))
      (s1, addMsgs ++ [OutMsg.timerFull sid timerId sid true] ++ limitMsgs)

/-- The timer object built by the `create-timer` handler before the creator
auto-joins: `new Timer(timerId, name, duration, maxConnectionsAllowed,
maxTimersAllowed)` (command defaults 4 and 3 applied at destructuring),
owner assignment, then the optional styling overrides (`timerView` falls
back to `"normal"`, not to the current value). -/
def newStyledTimer (name : String) (duration : Int) (maxConn maxTimers : Option Int)
    (cid : String) (styling : Option StylingPayload) (newTimerId : String) : Timer :=
  let timer0 := Timer.new newTimerId name duration (some (maxConn.getD 4))
    (some (maxTimers.getD 3))
  let timer0 := { timer0 with controllerId := some cid }
  match styling with
  | some st =>
    { timer0 with
      backgroundColor := jsOr st.backgroundColor timer0.backgroundColor,
      textColor := jsOr st.textColor timer0.textColor,
      fontSize := jsOr st.fontSize timer0.fontSize,
      timerView := jsOr st.timerView "normal" }
  | none => timer0

/-- The `create-timer` handler: quota check against the controller's owned
set (`maxTimersAllowed` defaults to 3) before any creation; on pass, build
the timer, register it in the registry and the owner's set, auto-add the
creator (return value ignored), record `deviceToTimer` and
`controllerToSocket` unconditionally, then emit the refreshed list and
`timer-created`.  `newTimerId` stands for the generated `generateId()`
value. -/
def handleCreateTimer (s : ServerState) (sid name : String) (duration : Int)
    (maxConn maxTimers : Option Int) (cid : String)
    (styling : Option StylingPayload) (newTimerId : String) (now : Int) :
    ServerState × List OutMsg :=
  if cid = "" then (s, []) else
  let maxTimersAllowed := maxTimers.getD 3
  let currentTimers := (mapGet s.controllerTimers cid).getD []
  if (currentTimers.length : Int) ≥ maxTimersAllowed then
    (s, [OutMsg.limitExceeded sid none "timers" (timerLimitMsg maxTimersAllowed)])
  else
    let timer0 := newStyledTimer name duration maxConn maxTimers cid styling newTimerId
    let s1 := { s with
      timers := mapSet s.timers newTimerId timer0,
      controllerTimers := mapSet s.controllerTimers cid (setAdd currentTimers newTimerId) }
    let (timer1, _, addMsgs) := Timer.addDevice timer0 sid now
    let s2 := { s1 with
      timers := mapSet s1.timers newTimerId timer1,
      deviceToTimer := mapSet s1.deviceToTimer sid newTimerId,
      controllerToSocket := mapSet s1.controllerToSocket cid
        (setAdd ((mapGet s1.controllerToSocket cid).getD []) sid) }
    (s2, addMsgs ++ [timerListMsg s2 sid cid, OutMsg.timerCreated sid timer1.getState])

/-- The `delete-timer` handler: owner-only; notify and unmap every connected
device, cancel the tick, remove the timer from the registry and from the
owner's set, then refresh the caller's list. -/
def handleDeleteTimer (s : ServerState) (sid timerId cid : String) :
    ServerState × List OutMsg :=
  if cid = "" then (s, []) else
  match mapGet s.timers timerId with
  | none => (s, [])
  | some timer =>
    if timer.controllerId = some cid then
      let deletedMsgs := timer.connectedDevices.map fun d =>
        OutMsg.timerDeleted d timerId
      let s1 := { s with
        deviceToTimer := timer.connectedDevices.foldl (fun m d => mapDelete m d) s.deviceToTimer }
      let s2 := { s1 with
        timers := mapDelete s1.timers timerId,
        controllerTimers :=
          match mapGet s1.controllerTimers cid with
          | some l => mapSet s1.controllerTimers cid (l.filter (· != timerId))
          | none => s1.controllerTimers }
      (s2, deletedMsgs ++ [timerListMsg s2 sid cid])
    else (s, [])

/-- The shared shape of the nine owner-only mutating handlers (`set-timer`,
`start-timer`, `pause-timer`, `reset-timer`, `adjust-timer`,
`update-message`, `clear-message`, `update-styling`, `toggle-flash`): drop
silently without a truthy `controllerId`, an existing timer and an
ownership match; otherwise run the entity operation and refresh the
caller's list. -/
def handleMutate (s : ServerState) (sid timerId cid : String)
    (op : Timer → Timer × List OutMsg) : ServerState × List OutMsg :=
  if cid = "" then (s, []) else
  match mapGet s.timers timerId with
  | none => (s, [])
  | some timer =>
    if timer.controllerId = some cid then
      let (timer', msgs) := op timer
      let s1 := { s with timers := mapSet s.timers timerId timer' }
      (s1, msgs ++ [timerListMsg s1 sid cid])
    else (s, [])

/-- The `disconnect` handler: remove the session from the timer recorded in
`deviceToTimer` (if any) and from every `controllerToSocket` set, dropping
sets that become empty. -/
def handleDisconnect (s : ServerState) (sid : String) (now : Int) :
    ServerState × List OutMsg :=
  let (s1, msgs) :=
    match mapGet s.deviceToTimer sid with
    | some timerId =>
      match mapGet s.timers timerId with
      | some timer =>
        let (timer', m) := Timer.removeDevice timer sid now
        ({ s with timers := mapSet s.timers timerId timer',
                  deviceToTimer := mapDelete s.deviceToTimer sid }, m)
      | none => ({ s with deviceToTimer := mapDelete s.deviceToTimer sid }, [])
    | none => (s, [])
  let cts := s1.controllerToSocket.filterMap fun p =>
    if sid ∈ p.2 then
      let rest := p.2.filter (· != sid)
      if rest.isEmpty then none else some (p.1, rest)
    else some p
  ({ s1 with controllerToSocket := cts }, msgs)

/-- One firing of a timer's `setInterval` callback: runs `update()` while
the tick source is still scheduled. -/
def handleTick (s : ServerState) (timerId : String) (now : Int) :
    ServerState × List OutMsg :=
  match mapGet s.timers timerId with
  | none => (s, [])
  | some timer =>
    if timer.interval then
      let (timer', msgs) := Timer.update timer now
      ({ s with timers := mapSet s.timers timerId timer' }, msgs)
    else (s, [])

/-- Inbound events.  `sid` is the sending socket's id; `newTimerId` on
`createTimer` is the id produced by `generateId()`; `tick` is the firing of
a timer's scheduled one-second callback. -/
inductive Cmd where
  | joinTimer (sid timerId cid : String) (maxConn : Option Int)
  | viewTimer (sid timerId cid : String) (maxConn : Option Int)
  | createTimer (sid name : String) (duration : Int)
      (maxConn maxTimers : Option Int) (cid : String)
      (styling : Option StylingPayload) (newTimerId : String)
  | getTimers (sid cid : String)
  | deleteTimer (sid timerId cid : String)
  | setTimer (sid timerId : String) (duration : Int) (cid : String)
  | startTimer (sid timerId cid : String)
  | pauseTimer (sid timerId cid : String)
  | resetTimer (sid timerId cid : String)
  | adjustTimer (sid timerId : String) (seconds : Int) (cid : String)
  | updateMessage (sid timerId msg cid : String)
  | clearMessage (sid timerId cid : String)
  | updateStyling (sid timerId : String) (styling : StylingPayload) (cid : String)
  | toggleFlash (sid timerId : String) (isFlashing : Bool) (cid : String)
  | disconnect (sid : String)
  | tick (timerId : String)
deriving Repr, DecidableEq

/-- The event router: dispatch one inbound event at clock value `now`. -/
def step (s : ServerState) (c : Cmd) (now : Int) : ServerState × List OutMsg :=
  match c with
  | .joinTimer sid tid cid mc => handleJoinTimer s sid tid cid mc now
  | .viewTimer sid tid cid mc => handleViewTimer s sid tid cid mc now
  | .createTimer sid name dur mc mt cid sty ntid =>
      handleCreateTimer s sid name dur mc mt cid sty ntid now
  | .getTimers sid cid =>
      if cid = "" then (s, []) else (s, [timerListMsg s sid cid])
  | .deleteTimer sid tid cid => handleDeleteTimer s sid tid cid
  | .setTimer sid tid dur cid =>
      handleMutate s sid tid cid (fun t => Timer.setDuration t dur now)
  | .startTimer sid tid cid => handleMutate s sid tid cid (fun t => Timer.start t now)
  | .pauseTimer sid tid cid => handleMutate s sid tid cid (fun t => Timer.pause t now)
  | .resetTimer sid tid cid => handleMutate s sid tid cid (fun t => Timer.reset t now)
  | .adjustTimer sid tid sec cid =>
      handleMutate s sid tid cid (fun t => Timer.adjustTime t sec now)
  | .updateMessage sid tid m cid =>
      handleMutate s sid tid cid (fun t => Timer.updateMessage t m now)
  | .clearMessage sid tid cid =>
      handleMutate s sid tid cid (fun t => Timer.clearMessage t now)
  | .updateStyling sid tid sty cid =>
      handleMutate s sid tid cid (fun t => Timer.updateStyling t sty now)
  | .toggleFlash sid tid b cid =>
      handleMutate s sid tid cid (fun t => Timer.toggleFlash t b now)
  | .disconnect sid => handleDisconnect s sid now
  | .tick tid => handleTick s tid now

/-- Well-formedness of an event against a state: `generateId()` produces an
id not already in the registry; every other event is unrestricted. -/
def CmdOK (s : ServerState) (c : Cmd) : Prop :=
  match c with
  | .createTimer _ _ _ _ _ _ _ ntid => mapGet s.timers ntid = none
  | _ => True

/-- The states the server can be in: everything produced from the empty
start state by well-formed events. -/
inductive Reachable : ServerState → Prop where
  | init : Reachable initState
  | next {s : ServerState} {c : Cmd} {now : Int} :
      Reachable s → CmdOK s c → Reachable (step s c now).1

/-! ## Field-preservation lemmas for the Timer operations -/

@[simp] theorem update_id (t : Timer) (now : Int) :
    (Timer.update t now).1.id = t.id := by
  unfold Timer.update
  rcases t.startTime with _ | st <;> by_cases hr : t.isRunning <;> simp [hr]

@[simp] theorem update_name (t : Timer) (now : Int) :
    (Timer.update t now).1.name = t.name := by
  unfold Timer.update
  rcases t.startTime with _ | st <;> by_cases hr : t.isRunning <;> simp [hr]

@[simp] theorem update_controllerId (t : Timer) (now : Int) :
    (Timer.update t now).1.controllerId = t.controllerId := by
  unfold Timer.update
  rcases t.startTime with _ | st <;> by_cases hr : t.isRunning <;> simp [hr]

@[simp] theorem update_maxConn (t : Timer) (now : Int) :
    (Timer.update t now).1.maxConnectionsAllowed = t.maxConnectionsAllowed := by
  unfold Timer.update
  rcases t.startTime with _ | st <;> by_cases hr : t.isRunning <;> simp [hr]

@[simp] theorem update_devices (t : Timer) (now : Int) :
    (Timer.update t now).1.connectedDevices = t.connectedDevices := by
  unfold Timer.update
  rcases t.startTime with _ | st <;> by_cases hr : t.isRunning <;> simp [hr]

@[simp] theorem update_isRunning (t : Timer) (now : Int) :
    (Timer.update t now).1.isRunning = t.isRunning := by
  unfold Timer.update
  rcases t.startTime with _ | st <;> by_cases hr : t.isRunning <;> simp [hr]

@[simp] theorem update_tickSource (t : Timer) (now : Int) :
    (Timer.update t now).1.interval = t.interval := by
  unfold Timer.update
  rcases t.startTime with _ | st <;> by_cases hr : t.isRunning <;> simp [hr]

@[simp] theorem update_duration (t : Timer) (now : Int) :
    (Timer.update t now).1.duration = t.duration := by
  unfold Timer.update
  rcases t.startTime with _ | st <;> by_cases hr : t.isRunning <;> simp [hr]

@[simp] theorem update_originalDuration (t : Timer) (now : Int) :
    (Timer.update t now).1.originalDuration = t.originalDuration := by
  unfold Timer.update
  rcases t.startTime with _ | st <;> by_cases hr : t.isRunning <;> simp [hr]

/-- While running with a start time set, `update()` recomputes `remaining`
as `duration - Math.floor((now - startTime) / 1000)`. -/
theorem update_remaining_running (t : Timer) (now st : Int)
    (hr : t.isRunning = true) (hst : t.startTime = some st) :
    (Timer.update t now).1.remaining = t.duration - Int.fdiv (now - st) 1000 := by
  unfold Timer.update
  simp [hst, hr]

/-- `update()` broadcasts the post-recomputation snapshot to every
connected device. -/
theorem update_broadcast (t : Timer) (now : Int) :
    (Timer.update t now).2 = (Timer.update t now).1.connectedDevices.map
      (fun d => OutMsg.timerUpdate d (Timer.update t now).1.getState) := by
  unfold Timer.update
  rcases t.startTime with _ | st <;> by_cases hr : t.isRunning <;> simp [hr]

/-- The three fields the registry-level invariants watch: the viewer set,
the viewer capacity, and the owner (plus identity). -/
def sameCore (t t' : Timer) : Prop :=
  t'.id = t.id ∧ t'.controllerId = t.controllerId ∧
  t'.maxConnectionsAllowed = t.maxConnectionsAllowed ∧
  t'.connectedDevices = t.connectedDevices

theorem sameCore_update (t : Timer) (now : Int) :
    sameCore t (Timer.update t now).1 := by
  refine ⟨?_, ?_, ?_, ?_⟩ <;> simp

theorem sameCore_start (t : Timer) (now : Int) :
    sameCore t (Timer.start t now).1 := by
  unfold Timer.start
  split <;> refine ⟨?_, ?_, ?_, ?_⟩ <;> simp

theorem sameCore_pause (t : Timer) (now : Int) :
    sameCore t (Timer.pause t now).1 := by
  unfold Timer.pause
  split <;> refine ⟨?_, ?_, ?_, ?_⟩ <;> simp

theorem sameCore_reset (t : Timer) (now : Int) :
    sameCore t (Timer.reset t now).1 := by
  unfold Timer.reset
  refine ⟨?_, ?_, ?_, ?_⟩ <;> simp

theorem sameCore_setDuration (t : Timer) (d now : Int) :
    sameCore t (Timer.setDuration t d now).1 := by
  unfold Timer.setDuration
  refine ⟨?_, ?_, ?_, ?_⟩ <;> simp

theorem sameCore_adjustTime (t : Timer) (sec now : Int) :
    sameCore t (Timer.adjustTime t sec now).1 := by
  unfold Timer.adjustTime Timer.setDuration
  by_cases hr : t.isRunning = true
  · simp only [hr, if_true]
    refine ⟨?_, ?_, ?_, ?_⟩ <;> (split <;> simp)
  · simp only [hr, if_false]
    refine ⟨?_, ?_, ?_, ?_⟩ <;> simp

theorem sameCore_updateMessage (t : Timer) (m : String) (now : Int) :
    sameCore t (Timer.updateMessage t m now).1 := by
  unfold Timer.updateMessage
  refine ⟨?_, ?_, ?_, ?_⟩ <;> simp

theorem sameCore_clearMessage (t : Timer) (now : Int) :
    sameCore t (Timer.clearMessage t now).1 := by
  unfold Timer.clearMessage
  refine ⟨?_, ?_, ?_, ?_⟩ <;> simp

theorem sameCore_updateStyling (t : Timer) (p : StylingPayload) (now : Int) :
    sameCore t (Timer.updateStyling t p now).1 := by
  unfold Timer.updateStyling
  refine ⟨?_, ?_, ?_, ?_⟩ <;> simp

theorem sameCore_toggleFlash (t : Timer) (b : Bool) (now : Int) :
    sameCore t (Timer.toggleFlash t b now).1 := by
  unfold Timer.toggleFlash
  refine ⟨?_, ?_, ?_, ?_⟩ <;> simp

/-- `addDevice` on success: add the device, run `update()`, return `true`. -/
theorem addDevice_pos (t : Timer) (d : String) (now : Int)
    (h : (t.connectedDevices.length : Int) < t.maxConnectionsAllowed) :
    Timer.addDevice t d now =
      ((Timer.update { t with connectedDevices := setAdd t.connectedDevices d } now).1,
       true,
       (Timer.update { t with connectedDevices := setAdd t.connectedDevices d } now).2) := by
  unfold Timer.addDevice
  simp [h]

/-- `addDevice` at capacity: no mutation, no emission, return `false`. -/
theorem addDevice_neg (t : Timer) (d : String) (now : Int)
    (h : ¬ (t.connectedDevices.length : Int) < t.maxConnectionsAllowed) :
    Timer.addDevice t d now = (t, false, []) := by
  unfold Timer.addDevice
  simp [h]

/-- The per-timer capacity bound. -/
def devBound (t : Timer) : Prop :=
  (t.connectedDevices.length : Int) ≤ t.maxConnectionsAllowed

theorem addDevice_devBound {t : Timer} (d : String) (now : Int)
    (h : devBound t) : devBound (Timer.addDevice t d now).1 := by
  by_cases hlt : (t.connectedDevices.length : Int) < t.maxConnectionsAllowed
  · rw [addDevice_pos t d now hlt]
    unfold devBound
    simp only [update_devices, update_maxConn]
    calc ((setAdd t.connectedDevices d).length : Int)
        ≤ (t.connectedDevices.length + 1 : Nat) := by
          exact_mod_cast length_setAdd_le t.connectedDevices d
      _ ≤ t.maxConnectionsAllowed := by push_cast; omega
  · rw [addDevice_neg t d now hlt]
    exact h

theorem addDevice_controllerId (t : Timer) (d : String) (now : Int) :
    (Timer.addDevice t d now).1.controllerId = t.controllerId := by
  unfold Timer.addDevice
  split <;> simp

theorem addDevice_maxConn (t : Timer) (d : String) (now : Int) :
    (Timer.addDevice t d now).1.maxConnectionsAllowed = t.maxConnectionsAllowed := by
  unfold Timer.addDevice
  split <;> simp

theorem addDevice_devices (t : Timer) (d : String) (now : Int) :
    (Timer.addDevice t d now).1.connectedDevices =
      if (t.connectedDevices.length : Int) < t.maxConnectionsAllowed
      then setAdd t.connectedDevices d else t.connectedDevices := by
  unfold Timer.addDevice
  split <;> simp_all

theorem addDevice_wasAdded (t : Timer) (d : String) (now : Int) :
    (Timer.addDevice t d now).2.1 =
      decide ((t.connectedDevices.length : Int) < t.maxConnectionsAllowed) := by
  unfold Timer.addDevice
  split <;> simp_all

theorem removeDevice_devBound {t : Timer} (d : String) (now : Int)
    (h : devBound t) : devBound (Timer.removeDevice t d now).1 := by
  unfold Timer.removeDevice devBound
  simp only [update_devices, update_maxConn]
  calc ((t.connectedDevices.filter (· != d)).length : Int)
      ≤ (t.connectedDevices.length : Nat) := by
        exact_mod_cast List.length_filter_le _ _
    _ ≤ t.maxConnectionsAllowed := h

theorem removeDevice_controllerId (t : Timer) (d : String) (now : Int) :
    (Timer.removeDevice t d now).1.controllerId = t.controllerId := by
  unfold Timer.removeDevice
  simp

/-- While not running, `update()` leaves `remaining` untouched. -/
theorem update_remaining_notRunning (t : Timer) (now : Int)
    (h : t.isRunning = false) :
    (Timer.update t now).1.remaining = t.remaining := by
  unfold Timer.update
  rcases t.startTime with _ | st <;> simp [h]

@[simp] theorem setDuration_duration (t : Timer) (d now : Int) :
    (Timer.setDuration t d now).1.duration = d := by
  unfold Timer.setDuration
  simp

@[simp] theorem setDuration_origDuration (t : Timer) (d now : Int) :
    (Timer.setDuration t d now).1.originalDuration = d := by
  unfold Timer.setDuration
  simp

@[simp] theorem setDuration_remaining (t : Timer) (d now : Int) :
    (Timer.setDuration t d now).1.remaining = d := by
  unfold Timer.setDuration
  exact update_remaining_notRunning _ now rfl

@[simp] theorem setDuration_isRunning (t : Timer) (d now : Int) :
    (Timer.setDuration t d now).1.isRunning = false := by
  unfold Timer.setDuration
  simp

@[simp] theorem reset_remaining (t : Timer) (now : Int) :
    (Timer.reset t now).1.remaining = t.originalDuration := by
  unfold Timer.reset
  exact update_remaining_notRunning _ now rfl

@[simp] theorem reset_duration (t : Timer) (now : Int) :
    (Timer.reset t now).1.duration = t.originalDuration := by
  unfold Timer.reset
  simp

/-- While not running, `adjustTime(seconds)` is exactly
`setDuration(Math.max(0, duration + seconds))`. -/
theorem adjustTime_notRunning (t : Timer) (sec now : Int)
    (h : t.isRunning = false) :
    Timer.adjustTime t sec now = Timer.setDuration t (max 0 (t.duration + sec)) now := by
  unfold Timer.adjustTime
  simp [h]

/-- What `adjustTime` does to the reset target: nothing while running;
`Math.max(0, duration + seconds)` (via `setDuration`) while stopped. -/
theorem adjustTime_origDuration (t : Timer) (sec now : Int) :
    (Timer.adjustTime t sec now).1.originalDuration =
      if t.isRunning then t.originalDuration else max 0 (t.duration + sec) := by
  by_cases hr : t.isRunning = true
  · unfold Timer.adjustTime
    simp only [hr, if_true]
    split <;> simp [hr]
  · rw [adjustTime_notRunning t sec now (by simpa using hr)]
    simp [hr]

end OnlineTimer

namespace OnlineTimer

/-! ## Claims C3, C6, C8: the Timer entity's arithmetic -/

/-- The timer as created by `create-timer{name:"n", duration:5}` before any
device joins; used as a concrete instance. -/
def c3Timer : Timer := Timer.new ("t3") ("n") 5 none none

/-- C3 counterexample: the most recent `setDuration`-or-creation value is 5,
yet after one intervening `adjustTime(-2)` performed while stopped,
`reset()` restores `remaining = 3`, not 5 — a stopped `adjustTime` goes
through `setDuration`, which overwrites `originalDuration`, the reset
target. -/
theorem claim_C3_counterexample :
    (Timer.reset (Timer.adjustTime c3Timer (-2) 0).1 0).1.remaining = 3 ∧
    ¬ (Timer.reset (Timer.adjustTime c3Timer (-2) 0).1 0).1.remaining = 5 := by
  constructor <;> decide

/-- C3 amended: `reset()` restores both `remaining` and `duration` to
`originalDuration` — the value set by the most recent `setDuration`,
creation, or `adjustTime` performed while stopped; an `adjustTime`
performed while running leaves the reset target unchanged, but one
performed while stopped rewrites it to `max 0 (duration + seconds)`. -/
theorem claim_C3 (t : Timer) (d sec now now' now'' : Int) :
    (Timer.reset t now).1.remaining = t.originalDuration ∧
    (Timer.reset t now).1.duration = t.originalDuration ∧
    (Timer.setDuration t d now').1.originalDuration = d ∧
    (Timer.adjustTime t sec now'').1.originalDuration =
      (if t.isRunning then t.originalDuration else max 0 (t.duration + sec)) ∧
    (Timer.new ("x") ("x") d none none).originalDuration = d := by
  exact ⟨reset_remaining t now, reset_duration t now,
    setDuration_origDuration t d now', adjustTime_origDuration t sec now'', rfl⟩

/-- C6: `update()` — the body of the 1-second tick — only recomputes
`remaining = duration - floor((now - startTime)/1000)` and broadcasts the
snapshot to the connected devices; it never clears `isRunning` and never
cancels the tick source, whatever value `remaining` takes (zero or
negative included). -/
theorem claim_C6 (t : Timer) (now st : Int) (hr : t.isRunning = true)
    (hst : t.startTime = some st) :
    (Timer.update t now).1.isRunning = true ∧
    (Timer.update t now).1.interval = t.interval ∧
    (Timer.update t now).1.remaining = t.duration - Int.fdiv (now - st) 1000 ∧
    (Timer.update t now).2 = (Timer.update t now).1.connectedDevices.map
      (fun d => OutMsg.timerUpdate d (Timer.update t now).1.getState) := by
  refine ⟨?_, update_tickSource t now, update_remaining_running t now st hr hst,
    update_broadcast t now⟩
  rw [update_isRunning]
  exact hr

/-- A running 3-second timer, 5 elapsed seconds in: `remaining` is already
negative at the tick. -/
def c6Timer : Timer :=
  { Timer.new ("t6") ("n") 3 none none with
      isRunning := true, startTime := some 0, interval := true }

theorem claim_C6_witness :
    c6Timer.isRunning = true ∧ c6Timer.startTime = some 0 ∧
    ((Timer.update c6Timer 5000).1.isRunning = true ∧
     (Timer.update c6Timer 5000).1.interval = c6Timer.interval ∧
     (Timer.update c6Timer 5000).1.remaining = c6Timer.duration - Int.fdiv (5000 - 0) 1000 ∧
     (Timer.update c6Timer 5000).2 = (Timer.update c6Timer 5000).1.connectedDevices.map
       (fun d => OutMsg.timerUpdate d (Timer.update c6Timer 5000).1.getState)) :=
  ⟨rfl, rfl, claim_C6 c6Timer 5000 0 rfl rfl⟩

/-- C8: for a non-running timer with `duration = 5`, `adjustTime(-10)`
clamps `duration` to 0 and a subsequent `adjustTime(+10)` yields 10, not 5:
the clamp at zero is not reversible. -/
theorem claim_C8 (t : Timer) (now now' : Int) (hrun : t.isRunning = false)
    (hdur : t.duration = 5) :
    (Timer.adjustTime t (-10) now).1.duration = 0 ∧
    (Timer.adjustTime (Timer.adjustTime t (-10) now).1 10 now').1.duration = 10 := by
  have h1 : (Timer.adjustTime t (-10) now).1.duration = 0 := by
    rw [adjustTime_notRunning t (-10) now hrun]
    rw [setDuration_duration, hdur]
    decide
  have h1r : (Timer.adjustTime t (-10) now).1.isRunning = false := by
    rw [adjustTime_notRunning t (-10) now hrun]
    exact setDuration_isRunning _ _ _
  refine ⟨h1, ?_⟩
  rw [adjustTime_notRunning _ 10 now' h1r]
  rw [setDuration_duration, h1]
  decide

theorem claim_C8_witness :
    c3Timer.isRunning = false ∧ c3Timer.duration = 5 ∧
    ((Timer.adjustTime c3Timer (-10) 0).1.duration = 0 ∧
     (Timer.adjustTime (Timer.adjustTime c3Timer (-10) 0).1 10 0).1.duration = 10) :=
  ⟨rfl, rfl, claim_C8 c3Timer 0 0 rfl rfl⟩

/-! ## Concrete run states used as instances and counterexamples -/

/-- After `create-timer{name:"Demo", duration:60, controllerId:"c1"}` from
socket `s0`, generating id `T`. -/
def sDemo : ServerState :=
  (step initState (.createTimer ("s0") ("Demo") 60 none none ("c1") none ("T")) 0).1

/-- After viewer session `v1` (controller identity `cv`) joined `T`. -/
def sDemoJ1 : ServerState :=
  (step sDemo (.joinTimer ("v1") ("T") ("cv") none) 0).1

/-- After a further `join-timer` from `v2` supplying `maxViewers = 1`. -/
def sDemoJ2cap1 : ServerState :=
  (step sDemoJ1 (.joinTimer ("v2") ("T") ("cv2") (some 1)) 0).1

/-- The timer value stored at `T` in `sDemo`. -/
def demoTimer : Timer :=
  { Timer.new ("T") ("Demo") 60 (some 4) (some 3) with
      controllerId := some ("c1"), connectedDevices := ["s0"] }

/-! ## Claim C4: mutating commands with a foreign controller id drop silently -/

theorem handleMutate_drop (s : ServerState) (sid tid cid : String) (t : Timer)
    (op : Timer → Timer × List OutMsg) (ht : mapGet s.timers tid = some t)
    (hown : ¬ t.controllerId = some cid) :
    handleMutate s sid tid cid op = (s, []) := by
  unfold handleMutate
  by_cases hc : cid = "" <;> simp [hc, ht, hown]

theorem handleDeleteTimer_drop (s : ServerState) (sid tid cid : String)
    (t : Timer) (ht : mapGet s.timers tid = some t)
    (hown : ¬ t.controllerId = some cid) :
    handleDeleteTimer s sid tid cid = (s, []) := by
  unfold handleDeleteTimer
  by_cases hc : cid = "" <;> simp [hc, ht, hown]

/-- C4: every mutating command (`set-timer`, `start-timer`, `pause-timer`,
`reset-timer`, `adjust-timer`, `update-message`, `clear-message`,
`update-styling`, `toggle-flash`, `delete-timer`) whose supplied
`controllerId` is not the timer's owner returns the state unchanged and
emits nothing at all. -/
theorem claim_C4 (s : ServerState) (sid tid cid m : String)
    (sty : StylingPayload) (b : Bool) (d sec now : Int) (t : Timer)
    (ht : mapGet s.timers tid = some t) (hown : ¬ t.controllerId = some cid) :
    step s (.setTimer sid tid d cid) now = (s, []) ∧
    step s (.startTimer sid tid cid) now = (s, []) ∧
    step s (.pauseTimer sid tid cid) now = (s, []) ∧
    step s (.resetTimer sid tid cid) now = (s, []) ∧
    step s (.adjustTimer sid tid sec cid) now = (s, []) ∧
    step s (.updateMessage sid tid m cid) now = (s, []) ∧
    step s (.clearMessage sid tid cid) now = (s, []) ∧
    step s (.updateStyling sid tid sty cid) now = (s, []) ∧
    step s (.toggleFlash sid tid b cid) now = (s, []) ∧
    step s (.deleteTimer sid tid cid) now = (s, []) := by
  exact ⟨handleMutate_drop s sid tid cid t (fun t => Timer.setDuration t d now) ht hown,
    handleMutate_drop s sid tid cid t (fun t => Timer.start t now) ht hown,
    handleMutate_drop s sid tid cid t (fun t => Timer.pause t now) ht hown,
    handleMutate_drop s sid tid cid t (fun t => Timer.reset t now) ht hown,
    handleMutate_drop s sid tid cid t (fun t => Timer.adjustTime t sec now) ht hown,
    handleMutate_drop s sid tid cid t (fun t => Timer.updateMessage t m now) ht hown,
    handleMutate_drop s sid tid cid t (fun t => Timer.clearMessage t now) ht hown,
    handleMutate_drop s sid tid cid t (fun t => Timer.updateStyling t sty now) ht hown,
    handleMutate_drop s sid tid cid t (fun t => Timer.toggleFlash t b now) ht hown,
    handleDeleteTimer_drop s sid tid cid t ht hown⟩

theorem claim_C4_witness :
    mapGet sDemo.timers ("T") = some demoTimer ∧
    (¬ demoTimer.controllerId = some ("c2")) ∧
    (step sDemo (.setTimer ("sX") ("T") 1 ("c2")) 0 = (sDemo, []) ∧
     step sDemo (.startTimer ("sX") ("T") ("c2")) 0 = (sDemo, []) ∧
     step sDemo (.pauseTimer ("sX") ("T") ("c2")) 0 = (sDemo, []) ∧
     step sDemo (.resetTimer ("sX") ("T") ("c2")) 0 = (sDemo, []) ∧
     step sDemo (.adjustTimer ("sX") ("T") 1 ("c2")) 0 = (sDemo, []) ∧
     step sDemo (.updateMessage ("sX") ("T") ("hi") ("c2")) 0 = (sDemo, []) ∧
     step sDemo (.clearMessage ("sX") ("T") ("c2")) 0 = (sDemo, []) ∧
     step sDemo (.updateStyling ("sX") ("T") ⟨none, none, none, none⟩ ("c2")) 0 = (sDemo, []) ∧
     step sDemo (.toggleFlash ("sX") ("T") true ("c2")) 0 = (sDemo, []) ∧
     step sDemo (.deleteTimer ("sX") ("T") ("c2")) 0 = (sDemo, [])) :=
  ⟨by decide, by decide,
   claim_C4 sDemo ("sX") ("T") ("c2") ("hi") ⟨none, none, none, none⟩ true 1 1 0
     demoTimer (by decide) (by decide)⟩

/-! ## Claim C7: the create-timer quota check -/

/-- C7: a `create-timer` from a controller already owning at least
`maxTimersAllowed` timers (the supplied limit, defaulting to 3) only sends
`limit-exceeded{type:"timers"}` back to the requester; no timer is created
and the whole state — registry, indexes, existing timers — is returned
unchanged. -/
theorem claim_C7 (s : ServerState) (sid name cid ntid : String) (dur now : Int)
    (mc mt : Option Int) (sty : Option StylingPayload)
    (hcid : ¬ cid = "")
    (hq : ((((mapGet s.controllerTimers cid).getD []).length : Int) ≥ mt.getD 3)) :
    step s (.createTimer sid name dur mc mt cid sty ntid) now =
      (s, [OutMsg.limitExceeded sid none ("timers") (timerLimitMsg (mt.getD 3))]) := by
  show handleCreateTimer s sid name dur mc mt cid sty ntid now = _
  unfold handleCreateTimer
  simp [hcid, hq]

/-- After `create-timer{..., maxTimersAllowed: 1, controllerId:"c1"}`:
controller `c1` owns one timer and its plan allows one. -/
def sQuota1 : ServerState :=
  (step initState (.createTimer ("s0") ("A") 10 none (some 1) ("c1") none ("A")) 0).1

theorem claim_C7_witness :
    (¬ ("c1" : String) = "") ∧
    ((((mapGet sQuota1.controllerTimers ("c1")).getD []).length : Int) ≥
      (some (1 : Int)).getD 3) ∧
    step sQuota1 (.createTimer ("s0") ("B") 10 none (some 1) ("c1") none ("B")) 0 =
      (sQuota1, [OutMsg.limitExceeded ("s0") none ("timers")
        (timerLimitMsg ((some (1 : Int)).getD 3))]) :=
  ⟨by decide, by decide,
   claim_C7 sQuota1 ("s0") ("B") ("c1") ("B") 10 0 none (some 1) none
     (by decide) (by decide)⟩

/-! ## Shape of the join-timer and view-timer handlers -/

/-- The timer's viewer capacity, looked up in the registry. -/
def timerCapAt (s : ServerState) (tid : String) : Option Int :=
  (mapGet s.timers tid).map (fun t => t.maxConnectionsAllowed)

/-- The timer's connected-viewer set, looked up in the registry. -/
def timerDevicesAt (s : ServerState) (tid : String) : Option (List String) :=
  (mapGet s.timers tid).map (fun t => t.connectedDevices)

/-- After a `join-timer` on an existing timer, the stored timer is the
result of overwriting the capacity with the supplied value (when present)
and then attempting `addDevice` — whether or not the add succeeded. -/
theorem joinTimer_timerAt (s : ServerState) (sid tid cid : String)
    (mc : Option Int) (now : Int) (t : Timer)
    (hcid : ¬ cid = "") (ht : mapGet s.timers tid = some t) :
    mapGet (handleJoinTimer s sid tid cid mc now).1.timers tid =
      some (Timer.addDevice
        { t with maxConnectionsAllowed := mc.getD t.maxConnectionsAllowed } sid now).1 := by
  unfold handleJoinTimer
  rcases hAdd : Timer.addDevice
      { t with maxConnectionsAllowed := mc.getD t.maxConnectionsAllowed } sid now
    with ⟨t2, wasAdded, msgs⟩
  cases wasAdded <;> simp [hcid, ht, hAdd, mapGet_mapSet_self]

/-- The `view-timer` analogue of `joinTimer_timerAt`. -/
theorem viewTimer_timerAt (s : ServerState) (sid tid cid : String)
    (mc : Option Int) (now : Int) (t : Timer)
    (hcid : ¬ cid = "") (ht : mapGet s.timers tid = some t) :
    mapGet (handleViewTimer s sid tid cid mc now).1.timers tid =
      some (Timer.addDevice
        { t with maxConnectionsAllowed := mc.getD t.maxConnectionsAllowed } sid now).1 := by
  unfold handleViewTimer
  rcases hAdd : Timer.addDevice
      { t with maxConnectionsAllowed := mc.getD t.maxConnectionsAllowed } sid now
    with ⟨t2, wasAdded, msgs⟩
  cases wasAdded <;> simp [hcid, ht, hAdd, mapGet_mapSet_self]

/-- A `join-timer` leaves every other registry entry untouched. -/
theorem joinTimer_otherTimers (s : ServerState) (sid tid cid : String)
    (mc : Option Int) (now : Int) (t : Timer)
    (hcid : ¬ cid = "") (ht : mapGet s.timers tid = some t)
    {tid' : String} (hne : tid' ≠ tid) :
    mapGet (handleJoinTimer s sid tid cid mc now).1.timers tid' =
      mapGet s.timers tid' := by
  unfold handleJoinTimer
  rcases hAdd : Timer.addDevice
      { t with maxConnectionsAllowed := mc.getD t.maxConnectionsAllowed } sid now
    with ⟨t2, wasAdded, msgs⟩
  cases wasAdded <;> simp [hcid, ht, hAdd, mapGet_mapSet_ne _ _ hne]

/-- A successful `join-timer` points `deviceToTimer[sid]` at the joined
timer. -/
theorem joinTimer_deviceMap (s : ServerState) (sid tid cid : String)
    (mc : Option Int) (now : Int) (t : Timer)
    (hcid : ¬ cid = "") (ht : mapGet s.timers tid = some t)
    (hcap : (t.connectedDevices.length : Int) < mc.getD t.maxConnectionsAllowed) :
    mapGet (handleJoinTimer s sid tid cid mc now).1.deviceToTimer sid = some tid := by
  unfold handleJoinTimer
  rcases hAdd : Timer.addDevice
      { t with maxConnectionsAllowed := mc.getD t.maxConnectionsAllowed } sid now
    with ⟨t2, wasAdded, msgs⟩
  have hw : wasAdded = true := by
    have h2 := addDevice_wasAdded
      { t with maxConnectionsAllowed := mc.getD t.maxConnectionsAllowed } sid now
    rw [hAdd] at h2
    simpa [hcap] using h2
  subst hw
  simp [hcid, ht, hAdd, mapGet_mapSet_self]

/-! ## Claim C10: join/view overwrite the capacity before checking it -/

/-- C10: a `join-timer` or `view-timer` carrying a capacity value `m` for an
existing timer stores `m` as the timer's capacity before the admission
check, with no ownership requirement on the supplied controller identity;
when `m` is at most the current viewer count the lowered capacity is kept
while the viewer set stays exactly as it was — nobody is evicted (and the
requester is refused). -/
theorem claim_C10 (s : ServerState) (sid tid cid : String) (m : Int)
    (t : Timer) (now : Int)
    (hcid : ¬ cid = "") (ht : mapGet s.timers tid = some t) :
    timerCapAt (handleJoinTimer s sid tid cid (some m) now).1 tid = some m ∧
    timerDevicesAt (handleJoinTimer s sid tid cid (some m) now).1 tid =
      some (if (t.connectedDevices.length : Int) < m
            then setAdd t.connectedDevices sid else t.connectedDevices) ∧
    timerCapAt (handleViewTimer s sid tid cid (some m) now).1 tid = some m ∧
    timerDevicesAt (handleViewTimer s sid tid cid (some m) now).1 tid =
      some (if (t.connectedDevices.length : Int) < m
            then setAdd t.connectedDevices sid else t.connectedDevices) := by
  have hj := joinTimer_timerAt s sid tid cid (some m) now t hcid ht
  have hv := viewTimer_timerAt s sid tid cid (some m) now t hcid ht
  refine ⟨?_, ?_, ?_, ?_⟩ <;>
    simp [timerCapAt, timerDevicesAt, hj, hv, addDevice_maxConn, addDevice_devices]

/-- The timer value stored at `T` in `sDemoJ1`: two viewers, capacity 4,
owned by `c1`. -/
def demoTimerJ1 : Timer :=
  { Timer.new ("T") ("Demo") 60 (some 4) (some 3) with
      controllerId := some ("c1"), connectedDevices := ["s0", "v1"] }

theorem claim_C10_witness :
    (¬ ("cv2" : String) = "") ∧
    mapGet sDemoJ1.timers ("T") = some demoTimerJ1 ∧
    (timerCapAt (handleJoinTimer sDemoJ1 ("v2") ("T") ("cv2") (some 1) 0).1 ("T") = some 1 ∧
     timerDevicesAt (handleJoinTimer sDemoJ1 ("v2") ("T") ("cv2") (some 1) 0).1 ("T") =
       some (if (demoTimerJ1.connectedDevices.length : Int) < 1
             then setAdd demoTimerJ1.connectedDevices ("v2")
             else demoTimerJ1.connectedDevices) ∧
     timerCapAt (handleViewTimer sDemoJ1 ("v2") ("T") ("cv2") (some 1) 0).1 ("T") = some 1 ∧
     timerDevicesAt (handleViewTimer sDemoJ1 ("v2") ("T") ("cv2") (some 1) 0).1 ("T") =
       some (if (demoTimerJ1.connectedDevices.length : Int) < 1
             then setAdd demoTimerJ1.connectedDevices ("v2")
             else demoTimerJ1.connectedDevices)) :=
  ⟨by decide, by decide,
   claim_C10 sDemoJ1 ("v2") ("T") ("cv2") 1 demoTimerJ1 0 (by decide) (by decide)⟩

/-! ## Claim C9: joining a new timer replaces the session's mapping, but the
old timer's viewer set is untouched -/

/-- Does this emission deliver `timer-joined` to the given socket? -/
def isTimerJoinedTo (sid : String) : OutMsg → Bool
  | .timerJoined t _ => t == sid
  | _ => false

/-- Controller `c1` created timers `A` and `B` from socket `s0`. -/
def sAB2 : ServerState :=
  (step (step initState (.createTimer ("s0") ("A") 10 none none ("c1") none ("A")) 0).1
    (.createTimer ("s0") ("B") 10 none none ("c1") none ("B")) 0).1

/-- Session `v1` then joined `A`. -/
def sAB3 : ServerState :=
  (step sAB2 (.joinTimer ("v1") ("A") ("cv") none) 0).1

/-- Session `v1` then joined `B` as well. -/
def sAB4 : ServerState :=
  (step sAB3 (.joinTimer ("v1") ("B") ("cv") none) 0).1

/-- C9 counterexample: `v1`, a connected viewer of `A`, successfully joins
`B` (it receives `timer-joined`), and its `deviceToTimer` mapping now
points at `B` — yet `v1` is still in `A`'s connected-viewer set: the join
never removes the session from the previous timer. -/
theorem claim_C9_counterexample :
    ((step sAB3 (.joinTimer ("v1") ("B") ("cv") none) 0).2.any
      (isTimerJoinedTo ("v1")) = true) ∧
    mapGet sAB4.deviceToTimer ("v1") = some ("B") ∧
    timerDevicesAt sAB4 ("A") = some (["s0", "v1"]) := by
  refine ⟨?_, ?_, ?_⟩ <;> decide

/-- C9 amended: the `deviceToTimer` map does hold at most one timer per
session and a successful join overwrites it with the new timer — but the
join leaves every other timer, in particular the previously joined one and
its connected-viewer set, completely unchanged: the session is not removed
from the old timer's viewers. -/
theorem claim_C9 (s : ServerState) (sid tidB tidA cid : String)
    (mc : Option Int) (t : Timer) (now : Int)
    (hcid : ¬ cid = "") (ht : mapGet s.timers tidB = some t)
    (hcap : (t.connectedDevices.length : Int) < mc.getD t.maxConnectionsAllowed)
    (hne : tidA ≠ tidB) :
    mapGet (handleJoinTimer s sid tidB cid mc now).1.deviceToTimer sid = some tidB ∧
    mapGet (handleJoinTimer s sid tidB cid mc now).1.timers tidA =
      mapGet s.timers tidA :=
  ⟨joinTimer_deviceMap s sid tidB cid mc now t hcid ht hcap,
   joinTimer_otherTimers s sid tidB cid mc now t hcid ht hne⟩

/-- The timer value stored at `B` in `sAB3`. -/
def timerB3 : Timer :=
  { Timer.new ("B") ("B") 10 (some 4) (some 3) with
      controllerId := some ("c1"), connectedDevices := ["s0"] }

/-! ## Claim C5: the maxViewers=1 capacity scenario -/

/-- Does this emission deliver `timer-full` for the given timer to the
given socket, naming it as the failed session? -/
def isTimerFullTo (sid tid : String) : OutMsg → Bool
  | .timerFull t tid' f _ => t == sid && tid' == tid && f == sid
  | _ => false

/-- Does this emission deliver `limit-exceeded{type:"viewers"}` for the
given timer to the given socket? -/
def isViewerLimitTo (sid tid : String) : OutMsg → Bool
  | .limitExceeded t tid' ty _ => t == sid && tid' == some tid && ty == "viewers"
  | _ => false

/-- A `join-timer` admitted by the capacity check emits `timer-joined` to
the requester. -/
theorem joinTimer_out_joined (s : ServerState) (sid tid cid : String)
    (mc : Option Int) (now : Int) (t : Timer)
    (hcid : ¬ cid = "") (ht : mapGet s.timers tid = some t)
    (hcap : (t.connectedDevices.length : Int) < mc.getD t.maxConnectionsAllowed) :
    (handleJoinTimer s sid tid cid mc now).2.any (isTimerJoinedTo sid) = true := by
  unfold handleJoinTimer
  rcases hAdd : Timer.addDevice
      { t with maxConnectionsAllowed := mc.getD t.maxConnectionsAllowed } sid now
    with ⟨t2, wasAdded, msgs⟩
  have hw : wasAdded = true := by
    have h2 := addDevice_wasAdded
      { t with maxConnectionsAllowed := mc.getD t.maxConnectionsAllowed } sid now
    rw [hAdd] at h2
    simpa [hcap] using h2
  subst hw
  simp [hcid, ht, hAdd, isTimerJoinedTo]

/-- A `join-timer` refused by the capacity check emits exactly `timer-full`
to the requester followed by one `limit-exceeded{type:"viewers"}` per
session tracked under the timer's owner controller. -/
theorem joinTimer_out_full (s : ServerState) (sid tid cid : String)
    (mc : Option Int) (now : Int) (t : Timer)
    (hcid : ¬ cid = "") (ht : mapGet s.timers tid = some t)
    (hcap : ¬ (t.connectedDevices.length : Int) < mc.getD t.maxConnectionsAllowed) :
    (handleJoinTimer s sid tid cid mc now).2 =
      OutMsg.timerFull sid tid sid false ::
      (match t.controllerId with
       | some oc => (mapGet s.controllerToSocket oc).getD []
       | none => []).map
        (fun csid => OutMsg.limitExceeded csid (some tid) ("viewers")
          (viewerLimitMsg (mc.getD t.maxConnectionsAllowed))) := by
  unfold handleJoinTimer
  have hneg := addDevice_neg
    { t with maxConnectionsAllowed := mc.getD t.maxConnectionsAllowed } sid now
    (by simpa using hcap)
  simp [hcid, ht, hneg]

/-- Each session of a list is notified when one `limit-exceeded` per list
element follows the `timer-full` emission. -/
theorem all_notified (l : List String) (tid msg : String) (x : OutMsg) :
    l.all (fun cs => (x :: l.map (fun csid =>
      OutMsg.limitExceeded csid (some tid) ("viewers") msg)).any
        (isViewerLimitTo cs tid)) = true := by
  rw [List.all_eq_true]
  intro cs hcs
  rw [List.any_eq_true]
  refine ⟨OutMsg.limitExceeded cs (some tid) ("viewers") msg, ?_, ?_⟩
  · exact List.mem_cons_of_mem _ (List.mem_map.mpr ⟨cs, hcs, rfl⟩)
  · simp [isViewerLimitTo]

/-- After `create-timer{maxViewers: 1}` from `s0`: the creator was
auto-added and already occupies the single viewer slot. -/
def sCap1 : ServerState :=
  (step initState (.createTimer ("s0") ("Demo") 60 (some 1) none ("c1") none ("T")) 0).1

/-- C5 counterexample: on a timer created with `maxViewers = 1`, the FIRST
`join-timer` for that timer is already refused — `create-timer` auto-adds
the creator's session, which occupies the only slot — so the requester
receives `timer-full`, not `timer-joined`. -/
theorem claim_C5_counterexample :
    (step sCap1 (.joinTimer ("v1") ("T") ("cv") none) 0).2 =
      [OutMsg.timerFull ("v1") ("T") ("v1") false,
       OutMsg.limitExceeded ("s0") (some ("T")) ("viewers") (viewerLimitMsg 1)] ∧
    ((step sCap1 (.joinTimer ("v1") ("T") ("cv") none) 0).2.any
      (isTimerJoinedTo ("v1")) = false) := by
  constructor <;> decide

/-- C5 amended: for a timer with `maxViewers = 1` whose viewer set is
currently empty, the first `join-timer` succeeds and the requester receives
`timer-joined`; a second `join-timer` (from any session — the slot is
taken) receives `timer-full` naming the failed session, and every session
tracked under the timer's owner controller receives
`limit-exceeded{type:"viewers"}`. -/
theorem claim_C5 (s : ServerState) (sid1 sid2 tid cid1 cid2 owner : String)
    (t : Timer) (now1 now2 : Int)
    (hcid1 : ¬ cid1 = "") (hcid2 : ¬ cid2 = "")
    (ht : mapGet s.timers tid = some t)
    (hdev : t.connectedDevices = [])
    (hmax : t.maxConnectionsAllowed = 1)
    (hown : t.controllerId = some owner) :
    ((handleJoinTimer s sid1 tid cid1 none now1).2.any (isTimerJoinedTo sid1) = true) ∧
    ((handleJoinTimer (handleJoinTimer s sid1 tid cid1 none now1).1
        sid2 tid cid2 none now2).2.any (isTimerFullTo sid2 tid) = true) ∧
    (((mapGet (handleJoinTimer s sid1 tid cid1 none now1).1.controllerToSocket
        owner).getD []).all
      (fun cs => (handleJoinTimer (handleJoinTimer s sid1 tid cid1 none now1).1
        sid2 tid cid2 none now2).2.any (isViewerLimitTo cs tid)) = true) := by
  have hcap1 : (t.connectedDevices.length : Int) <
      (none : Option Int).getD t.maxConnectionsAllowed := by
    simp [hdev, hmax]
  have hA := joinTimer_out_joined s sid1 tid cid1 none now1 t hcid1 ht hcap1
  have ht2 := joinTimer_timerAt s sid1 tid cid1 none now1 t hcid1 ht
  simp only [Option.getD_none] at ht2
  set t2 : Timer :=
    (Timer.addDevice { t with maxConnectionsAllowed := t.maxConnectionsAllowed }
      sid1 now1).1 with ht2def
  have hdev2 : t2.connectedDevices = [sid1] := by
    rw [ht2def, addDevice_devices]
    simp [hdev, hmax, setAdd]
  have hmax2 : t2.maxConnectionsAllowed = 1 := by
    rw [ht2def, addDevice_maxConn]
    exact hmax
  have hown2 : t2.controllerId = some owner := by
    rw [ht2def, addDevice_controllerId]
    exact hown
  have hcap2 : ¬ (t2.connectedDevices.length : Int) <
      (none : Option Int).getD t2.maxConnectionsAllowed := by
    simp [hdev2, hmax2]
  have hout2 := joinTimer_out_full (handleJoinTimer s sid1 tid cid1 none now1).1
    sid2 tid cid2 none now2 t2 hcid2 ht2 hcap2
  refine ⟨hA, ?_, ?_⟩
  · rw [hout2]
    simp [isTimerFullTo]
  · rw [hout2, hown2]
    exact all_notified _ _ _ _

/-- A concrete state realizing the amended C5 scenario: a capacity-1 timer
owned by `c1` with no connected viewers, with `s0` tracked under `c1`. -/
def c5WTimer : Timer :=
  { Timer.new ("T") ("Demo") 60 (some 1) (some 3) with controllerId := some ("c1") }

def c5WState : ServerState where
  timers := [(("T"), c5WTimer)]
  deviceToTimer := []
  controllerTimers := [(("c1"), ["T"])]
  controllerToSocket := [(("c1"), ["s0"])]

theorem claim_C5_witness :
    (¬ ("cv" : String) = "") ∧ (¬ ("cw" : String) = "") ∧
    mapGet c5WState.timers ("T") = some c5WTimer ∧
    c5WTimer.connectedDevices = [] ∧
    c5WTimer.maxConnectionsAllowed = 1 ∧
    c5WTimer.controllerId = some ("c1") ∧
    (((handleJoinTimer c5WState ("v1") ("T") ("cv") none 0).2.any
        (isTimerJoinedTo ("v1")) = true) ∧
     ((handleJoinTimer (handleJoinTimer c5WState ("v1") ("T") ("cv") none 0).1
         ("v2") ("T") ("cw") none 0).2.any (isTimerFullTo ("v2") ("T")) = true) ∧
     (((mapGet (handleJoinTimer c5WState ("v1") ("T") ("cv") none 0).1.controllerToSocket
         ("c1")).getD []).all
       (fun cs => (handleJoinTimer (handleJoinTimer c5WState ("v1") ("T") ("cv") none 0).1
         ("v2") ("T") ("cw") none 0).2.any (isViewerLimitTo cs ("T"))) = true)) :=
  ⟨by decide, by decide, by decide, by decide, by decide, by decide,
   claim_C5 c5WState ("v1") ("v2") ("T") ("cv") ("cw") ("c1") c5WTimer 0 0
     (by decide) (by decide) (by decide) (by decide) (by decide) (by decide)⟩

theorem claim_C9_witness :
    (¬ ("cv" : String) = "") ∧
    mapGet sAB3.timers ("B") = some timerB3 ∧
    ((timerB3.connectedDevices.length : Int) <
      (none : Option Int).getD timerB3.maxConnectionsAllowed) ∧
    (("A" : String) ≠ "B") ∧
    (mapGet (handleJoinTimer sAB3 ("v1") ("B") ("cv") none 0).1.deviceToTimer ("v1") =
      some ("B") ∧
     mapGet (handleJoinTimer sAB3 ("v1") ("B") ("cv") none 0).1.timers ("A") =
      mapGet sAB3.timers ("A")) :=
  ⟨by decide, by decide, by decide, by decide,
   claim_C9 sAB3 ("v1") ("B") ("A") ("cv") none timerB3 0
     (by decide) (by decide) (by decide) (by decide)⟩

/-! ## Claim C1: the per-timer viewer-capacity invariant -/

/-- The capacity invariant `connectedViewers.size <= maxViewers`, over every
registry entry (decidable form). -/
def capInvB (s : ServerState) : Bool :=
  s.timers.all fun p =>
    decide ((p.2.connectedDevices.length : Int) ≤ p.2.maxConnectionsAllowed)

theorem capInvB_iff (s : ServerState) :
    capInvB s = true ↔ ∀ p ∈ s.timers, devBound p.2 := by
  simp [capInvB, devBound, List.all_eq_true]

/-- Does the timer at `tid` hold strictly more viewers than its capacity? -/
def capViolation (s : ServerState) (tid : String) : Bool :=
  match mapGet s.timers tid with
  | some t => decide (t.maxConnectionsAllowed < (t.connectedDevices.length : Int))
  | none => false

/-- C1 counterexample: the reachable state after `create-timer` (capacity
4, creator auto-joined), one successful `join-timer` by `v1`, and a second
`join-timer` by `v2` supplying `maxViewers = 1`: the stored capacity is now
1 while two viewers remain connected, so `connectedViewers.size <=
maxViewers` fails. -/
theorem claim_C1_counterexample :
    Reachable sDemoJ2cap1 ∧ capViolation sDemoJ2cap1 ("T") = true := by
  constructor
  · exact Reachable.next (Reachable.next (Reachable.next Reachable.init (by rfl))
      trivial) trivial
  · decide

/-- The capacity values supplied by a command stay above the relevant
current viewer count: `join-timer` / `view-timer` may not lower a timer's
capacity below its connected-viewer count, and `create-timer` may not carry
a negative capacity.  Every other command is unrestricted. -/
def capacitySafe (s : ServerState) (c : Cmd) : Bool :=
  match c with
  | .joinTimer _ tid _ (some m) =>
    (match mapGet s.timers tid with
     | some t => decide ((t.connectedDevices.length : Int) ≤ m)
     | none => true)
  | .viewTimer _ tid _ (some m) =>
    (match mapGet s.timers tid with
     | some t => decide ((t.connectedDevices.length : Int) ≤ m)
     | none => true)
  | .createTimer _ _ _ mc _ _ _ _ => decide ((0 : Int) ≤ mc.getD 4)
  | _ => true

theorem devBound_of_sameCore {t t' : Timer} (hc : sameCore t t')
    (h : devBound t) : devBound t' := by
  unfold devBound
  rw [hc.2.2.2, hc.2.2.1]
  exact h

theorem devBound_mapSet {l : List (String × Timer)} {k : String} {t : Timer}
    (hl : ∀ p ∈ l, devBound p.2) (ht : devBound t) :
    ∀ p ∈ mapSet l k t, devBound p.2 := by
  intro p hp
  rcases mem_mapSet hp with rfl | hp'
  · exact ht
  · exact hl p hp'

/-- The registry after `handleMutate`: unchanged, or one entry rewritten by
the entity operation. -/
theorem handleMutate_timers_cases (s : ServerState) (sid tid cid : String)
    (op : Timer → Timer × List OutMsg) :
    (handleMutate s sid tid cid op).1.timers = s.timers ∨
    ∃ t, mapGet s.timers tid = some t ∧
      (handleMutate s sid tid cid op).1.timers = mapSet s.timers tid (op t).1 := by
  unfold handleMutate
  by_cases hc : cid = ""
  · simp [hc]
  · cases hmt : mapGet s.timers tid with
    | none => simp [hc, hmt]
    | some t =>
      by_cases ho : t.controllerId = some cid
      · rcases hop : op t with ⟨t', msgs⟩
        right
        exact ⟨t, rfl, by simp [hc, hmt, ho, hop]⟩
      · simp [hc, hmt, ho]

/-- The registry after `join-timer`: unchanged, or the joined entry
rewritten by the capacity overwrite plus `addDevice`. -/
theorem joinTimer_timers_cases (s : ServerState) (sid tid cid : String)
    (mc : Option Int) (now : Int) :
    (handleJoinTimer s sid tid cid mc now).1.timers = s.timers ∨
    ∃ t, mapGet s.timers tid = some t ∧
      (handleJoinTimer s sid tid cid mc now).1.timers =
        mapSet s.timers tid (Timer.addDevice
          { t with maxConnectionsAllowed := mc.getD t.maxConnectionsAllowed }
          sid now).1 := by
  unfold handleJoinTimer
  by_cases hc : cid = ""
  · simp [hc]
  · cases hmt : mapGet s.timers tid with
    | none => simp [hc, hmt]
    | some t =>
      rcases hAdd : Timer.addDevice
          { t with maxConnectionsAllowed := mc.getD t.maxConnectionsAllowed } sid now
        with ⟨t2, wasAdded, msgs⟩
      cases wasAdded <;> right <;> exact ⟨t, rfl, by simp [hc, hmt, hAdd]⟩

/-- The registry after `view-timer`: as for `join-timer`. -/
theorem viewTimer_timers_cases (s : ServerState) (sid tid cid : String)
    (mc : Option Int) (now : Int) :
    (handleViewTimer s sid tid cid mc now).1.timers = s.timers ∨
    ∃ t, mapGet s.timers tid = some t ∧
      (handleViewTimer s sid tid cid mc now).1.timers =
        mapSet s.timers tid (Timer.addDevice
          { t with maxConnectionsAllowed := mc.getD t.maxConnectionsAllowed }
          sid now).1 := by
  unfold handleViewTimer
  by_cases hc : cid = ""
  · simp [hc]
  · cases hmt : mapGet s.timers tid with
    | none => simp [hc, hmt]
    | some t =>
      rcases hAdd : Timer.addDevice
          { t with maxConnectionsAllowed := mc.getD t.maxConnectionsAllowed } sid now
        with ⟨t2, wasAdded, msgs⟩
      cases wasAdded <;> right <;> exact ⟨t, rfl, by simp [hc, hmt, hAdd]⟩

theorem newStyledTimer_devices (name : String) (dur : Int) (mc mt : Option Int)
    (cid : String) (sty : Option StylingPayload) (ntid : String) :
    (newStyledTimer name dur mc mt cid sty ntid).connectedDevices = [] := by
  unfold newStyledTimer
  cases sty <;> simp [Timer.new]

theorem newStyledTimer_maxConn (name : String) (dur : Int) (mc mt : Option Int)
    (cid : String) (sty : Option StylingPayload) (ntid : String) :
    (newStyledTimer name dur mc mt cid sty ntid).maxConnectionsAllowed = mc.getD 4 := by
  unfold newStyledTimer
  cases sty <;> simp [Timer.new]

theorem newStyledTimer_controllerId (name : String) (dur : Int) (mc mt : Option Int)
    (cid : String) (sty : Option StylingPayload) (ntid : String) :
    (newStyledTimer name dur mc mt cid sty ntid).controllerId = some cid := by
  unfold newStyledTimer
  cases sty <;> simp [Timer.new]

theorem newStyledTimer_id (name : String) (dur : Int) (mc mt : Option Int)
    (cid : String) (sty : Option StylingPayload) (ntid : String) :
    (newStyledTimer name dur mc mt cid sty ntid).id = ntid := by
  unfold newStyledTimer
  cases sty <;> simp [Timer.new]

/-- The registry after `create-timer`: unchanged, or the fresh entry written
(twice: before and after the creator's auto-join). -/
theorem createTimer_timers_cases (s : ServerState) (sid name : String)
    (dur : Int) (mc mt : Option Int) (cid : String)
    (sty : Option StylingPayload) (ntid : String) (now : Int) :
    (handleCreateTimer s sid name dur mc mt cid sty ntid now).1.timers = s.timers ∨
    (handleCreateTimer s sid name dur mc mt cid sty ntid now).1.timers =
      mapSet (mapSet s.timers ntid (newStyledTimer name dur mc mt cid sty ntid))
        ntid (Timer.addDevice (newStyledTimer name dur mc mt cid sty ntid) sid now).1 := by
  unfold handleCreateTimer
  by_cases hc : cid = ""
  · simp [hc]
  · by_cases hq : ((((mapGet s.controllerTimers cid).getD []).length : Int) ≥ mt.getD 3)
    · simp [hc, hq]
    · rcases hAdd : Timer.addDevice (newStyledTimer name dur mc mt cid sty ntid) sid now
        with ⟨t1, wasAdded, msgs⟩
      right
      simp [hc, hq, hAdd]

/-- The registry after `delete-timer`: unchanged, or one entry deleted. -/
theorem deleteTimer_timers_cases (s : ServerState) (sid tid cid : String) :
    (handleDeleteTimer s sid tid cid).1.timers = s.timers ∨
    (handleDeleteTimer s sid tid cid).1.timers = mapDelete s.timers tid := by
  unfold handleDeleteTimer
  by_cases hc : cid = ""
  · simp [hc]
  · cases hmt : mapGet s.timers tid with
    | none => simp [hc, hmt]
    | some t =>
      by_cases ho : t.controllerId = some cid
      · cases hct : mapGet s.controllerTimers cid <;> right <;> simp [hc, hmt, ho, hct]
      · simp [hc, hmt, ho]

/-- The registry after `disconnect`: unchanged, or one entry rewritten by
`removeDevice`. -/
theorem disconnect_timers_cases (s : ServerState) (sid : String) (now : Int) :
    (handleDisconnect s sid now).1.timers = s.timers ∨
    ∃ tid t, mapGet s.timers tid = some t ∧
      (handleDisconnect s sid now).1.timers =
        mapSet s.timers tid (Timer.removeDevice t sid now).1 := by
  unfold handleDisconnect
  cases hdt : mapGet s.deviceToTimer sid with
  | none => simp [hdt]
  | some tid =>
    cases hmt : mapGet s.timers tid with
    | none => simp [hdt, hmt]
    | some t =>
      rcases hrm : Timer.removeDevice t sid now with ⟨t', msgs⟩
      right
      exact ⟨tid, t, hmt, by simp [hdt, hmt, hrm]⟩

/-- The registry after a tick: unchanged, or one entry rewritten by
`update()`. -/
theorem tick_timers_cases (s : ServerState) (tid : String) (now : Int) :
    (handleTick s tid now).1.timers = s.timers ∨
    ∃ t, mapGet s.timers tid = some t ∧
      (handleTick s tid now).1.timers = mapSet s.timers tid (Timer.update t now).1 := by
  unfold handleTick
  cases hmt : mapGet s.timers tid with
  | none => simp [hmt]
  | some t =>
    by_cases hi : t.interval = true
    · rcases hup : Timer.update t now with ⟨t', msgs⟩
      right
      exact ⟨t, rfl, by simp [hmt, hi, hup]⟩
    · simp [hmt, hi]

/-- C1 amended: `addDevice` itself can never push a viewer set past the
capacity, so the invariant `connectedViewers.size <= maxViewers` is
preserved by every command step — except that `join-timer` / `view-timer`
first overwrite the capacity with the caller-supplied value, and
`create-timer` installs the caller-supplied capacity; the invariant is
preserved whenever each supplied capacity value is at least the timer's
current viewer count (nonnegative for a fresh timer), and the C1
counterexample shows it is genuinely lost otherwise. -/
theorem claim_C1 (s : ServerState) (c : Cmd) (now : Int)
    (h1 : capInvB s = true) (h2 : capacitySafe s c = true) :
    capInvB (step s c now).1 = true := by
  rw [capInvB_iff] at h1 ⊢
  cases c with
  | joinTimer sid tid cid mc =>
    rcases joinTimer_timers_cases s sid tid cid mc now with heq | ⟨t, hmt, heq⟩
    · show ∀ p ∈ (handleJoinTimer s sid tid cid mc now).1.timers, devBound p.2
      rw [heq]; exact h1
    · show ∀ p ∈ (handleJoinTimer s sid tid cid mc now).1.timers, devBound p.2
      rw [heq]
      refine devBound_mapSet h1 (addDevice_devBound sid now ?_)
      cases mc with
      | none => simpa [devBound] using h1 _ (mapGet_mem hmt)
      | some m =>
        simp only [capacitySafe, hmt] at h2
        simpa [devBound] using h2
  | viewTimer sid tid cid mc =>
    rcases viewTimer_timers_cases s sid tid cid mc now with heq | ⟨t, hmt, heq⟩
    · show ∀ p ∈ (handleViewTimer s sid tid cid mc now).1.timers, devBound p.2
      rw [heq]; exact h1
    · show ∀ p ∈ (handleViewTimer s sid tid cid mc now).1.timers, devBound p.2
      rw [heq]
      refine devBound_mapSet h1 (addDevice_devBound sid now ?_)
      cases mc with
      | none => simpa [devBound] using h1 _ (mapGet_mem hmt)
      | some m =>
        simp only [capacitySafe, hmt] at h2
        simpa [devBound] using h2
  | createTimer sid name dur mc mt cid sty ntid =>
    rcases createTimer_timers_cases s sid name dur mc mt cid sty ntid now with heq | heq
    · show ∀ p ∈ (handleCreateTimer s sid name dur mc mt cid sty ntid now).1.timers,
        devBound p.2
      rw [heq]; exact h1
    · show ∀ p ∈ (handleCreateTimer s sid name dur mc mt cid sty ntid now).1.timers,
        devBound p.2
      rw [heq]
      have hb0 : devBound (newStyledTimer name dur mc mt cid sty ntid) := by
        unfold devBound
        rw [newStyledTimer_devices, newStyledTimer_maxConn]
        simpa [capacitySafe] using h2
      exact devBound_mapSet (devBound_mapSet h1 hb0) (addDevice_devBound sid now hb0)
  | getTimers sid cid =>
    by_cases hc : cid = "" <;> simp [step, hc] <;>
      exact fun a b hab => h1 (a, b) hab
  | deleteTimer sid tid cid =>
    rcases deleteTimer_timers_cases s sid tid cid with heq | heq <;>
      (show ∀ p ∈ (handleDeleteTimer s sid tid cid).1.timers, devBound p.2; rw [heq])
    · exact h1
    · exact fun p hp => h1 p (mem_mapDelete hp)
  | setTimer sid tid dur cid =>
    rcases handleMutate_timers_cases s sid tid cid
        (fun t => Timer.setDuration t dur now) with heq | ⟨t, hmt, heq⟩ <;>
      (show ∀ p ∈ (handleMutate s sid tid cid
        (fun t => Timer.setDuration t dur now)).1.timers, devBound p.2; rw [heq])
    · exact h1
    · exact devBound_mapSet h1
        (devBound_of_sameCore (sameCore_setDuration t dur now) (h1 _ (mapGet_mem hmt)))
  | startTimer sid tid cid =>
    rcases handleMutate_timers_cases s sid tid cid
        (fun t => Timer.start t now) with heq | ⟨t, hmt, heq⟩ <;>
      (show ∀ p ∈ (handleMutate s sid tid cid
        (fun t => Timer.start t now)).1.timers, devBound p.2; rw [heq])
    · exact h1
    · exact devBound_mapSet h1
        (devBound_of_sameCore (sameCore_start t now) (h1 _ (mapGet_mem hmt)))
  | pauseTimer sid tid cid =>
    rcases handleMutate_timers_cases s sid tid cid
        (fun t => Timer.pause t now) with heq | ⟨t, hmt, heq⟩ <;>
      (show ∀ p ∈ (handleMutate s sid tid cid
        (fun t => Timer.pause t now)).1.timers, devBound p.2; rw [heq])
    · exact h1
    · exact devBound_mapSet h1
        (devBound_of_sameCore (sameCore_pause t now) (h1 _ (mapGet_mem hmt)))
  | resetTimer sid tid cid =>
    rcases handleMutate_timers_cases s sid tid cid
        (fun t => Timer.reset t now) with heq | ⟨t, hmt, heq⟩ <;>
      (show ∀ p ∈ (handleMutate s sid tid cid
        (fun t => Timer.reset t now)).1.timers, devBound p.2; rw [heq])
    · exact h1
    · exact devBound_mapSet h1
        (devBound_of_sameCore (sameCore_reset t now) (h1 _ (mapGet_mem hmt)))
  | adjustTimer sid tid sec cid =>
    rcases handleMutate_timers_cases s sid tid cid
        (fun t => Timer.adjustTime t sec now) with heq | ⟨t, hmt, heq⟩ <;>
      (show ∀ p ∈ (handleMutate s sid tid cid
        (fun t => Timer.adjustTime t sec now)).1.timers, devBound p.2; rw [heq])
    · exact h1
    · exact devBound_mapSet h1
        (devBound_of_sameCore (sameCore_adjustTime t sec now) (h1 _ (mapGet_mem hmt)))
  | updateMessage sid tid m cid =>
    rcases handleMutate_timers_cases s sid tid cid
        (fun t => Timer.updateMessage t m now) with heq | ⟨t, hmt, heq⟩ <;>
      (show ∀ p ∈ (handleMutate s sid tid cid
        (fun t => Timer.updateMessage t m now)).1.timers, devBound p.2; rw [heq])
    · exact h1
    · exact devBound_mapSet h1
        (devBound_of_sameCore (sameCore_updateMessage t m now) (h1 _ (mapGet_mem hmt)))
  | clearMessage sid tid cid =>
    rcases handleMutate_timers_cases s sid tid cid
        (fun t => Timer.clearMessage t now) with heq | ⟨t, hmt, heq⟩ <;>
      (show ∀ p ∈ (handleMutate s sid tid cid
        (fun t => Timer.clearMessage t now)).1.timers, devBound p.2; rw [heq])
    · exact h1
    · exact devBound_mapSet h1
        (devBound_of_sameCore (sameCore_clearMessage t now) (h1 _ (mapGet_mem hmt)))
  | updateStyling sid tid sty cid =>
    rcases handleMutate_timers_cases s sid tid cid
        (fun t => Timer.updateStyling t sty now) with heq | ⟨t, hmt, heq⟩ <;>
      (show ∀ p ∈ (handleMutate s sid tid cid
        (fun t => Timer.updateStyling t sty now)).1.timers, devBound p.2; rw [heq])
    · exact h1
    · exact devBound_mapSet h1
        (devBound_of_sameCore (sameCore_updateStyling t sty now) (h1 _ (mapGet_mem hmt)))
  | toggleFlash sid tid b cid =>
    rcases handleMutate_timers_cases s sid tid cid
        (fun t => Timer.toggleFlash t b now) with heq | ⟨t, hmt, heq⟩ <;>
      (show ∀ p ∈ (handleMutate s sid tid cid
        (fun t => Timer.toggleFlash t b now)).1.timers, devBound p.2; rw [heq])
    · exact h1
    · exact devBound_mapSet h1
        (devBound_of_sameCore (sameCore_toggleFlash t b now) (h1 _ (mapGet_mem hmt)))
  | disconnect sid =>
    rcases disconnect_timers_cases s sid now with heq | ⟨tid, t, hmt, heq⟩ <;>
      (show ∀ p ∈ (handleDisconnect s sid now).1.timers, devBound p.2; rw [heq])
    · exact h1
    · exact devBound_mapSet h1 (removeDevice_devBound sid now (h1 _ (mapGet_mem hmt)))
  | tick tid =>
    rcases tick_timers_cases s tid now with heq | ⟨t, hmt, heq⟩ <;>
      (show ∀ p ∈ (handleTick s tid now).1.timers, devBound p.2; rw [heq])
    · exact h1
    · exact devBound_mapSet h1
        (devBound_of_sameCore (sameCore_update t now) (h1 _ (mapGet_mem hmt)))

theorem claim_C1_witness :
    capInvB sDemoJ1 = true ∧
    capacitySafe sDemoJ1 (.joinTimer ("v2") ("T") ("cv2") (some 5)) = true ∧
    capInvB (step sDemoJ1 (.joinTimer ("v2") ("T") ("cv2") (some 5)) 0).1 = true :=
  ⟨by decide, by decide,
   claim_C1 sDemoJ1 (.joinTimer ("v2") ("T") ("cv2") (some 5)) 0 (by decide) (by decide)⟩

/-! ## Claim C2: tenant-scoped timer listing -/

/-- The tenant-ownership invariant: every id in a controller's owned set
resolves to a registry timer whose owner is that controller. -/
def ownInv (s : ServerState) : Prop :=
  ∀ c tid, tid ∈ (mapGet s.controllerTimers c).getD [] →
    ∃ t, mapGet s.timers tid = some t ∧ t.controllerId = some c

theorem ownInv_of_same {s s' : ServerState} (h : ownInv s)
    (heq : s'.timers = s.timers)
    (hct : s'.controllerTimers = s.controllerTimers) : ownInv s' := by
  intro c tid0 hmem
  rw [hct] at hmem
  rw [heq]
  exact h c tid0 hmem

/-- Writing back a timer whose owner field is unchanged preserves the
ownership invariant (the owned sets untouched). -/
theorem ownInv_of_write {s s' : ServerState} (h : ownInv s)
    {tid : String} {t t' : Timer}
    (hmt : mapGet s.timers tid = some t)
    (hcid : t'.controllerId = t.controllerId)
    (heq : s'.timers = mapSet s.timers tid t')
    (hct : s'.controllerTimers = s.controllerTimers) : ownInv s' := by
  intro c tid0 hmem
  rw [hct] at hmem
  rcases h c tid0 hmem with ⟨u, hu, huc⟩
  rw [heq]
  by_cases he : tid0 = tid
  · subst he
    have hut : u = t := Option.some.inj (hu.symm.trans hmt)
    refine ⟨t', mapGet_mapSet_self _ _ _, ?_⟩
    rw [hcid, ← hut]
    exact huc
  · refine ⟨u, ?_, huc⟩
    rw [mapGet_mapSet_ne _ _ he]
    exact hu

theorem handleMutate_ct (s : ServerState) (sid tid cid : String)
    (op : Timer → Timer × List OutMsg) :
    (handleMutate s sid tid cid op).1.controllerTimers = s.controllerTimers := by
  unfold handleMutate
  by_cases hc : cid = ""
  · simp [hc]
  · cases hmt : mapGet s.timers tid with
    | none => simp [hc, hmt]
    | some t =>
      by_cases ho : t.controllerId = some cid
      · rcases hop : op t with ⟨t', msgs⟩
        simp [hc, hmt, ho, hop]
      · simp [hc, hmt, ho]

theorem joinTimer_ct (s : ServerState) (sid tid cid : String)
    (mc : Option Int) (now : Int) :
    (handleJoinTimer s sid tid cid mc now).1.controllerTimers = s.controllerTimers := by
  unfold handleJoinTimer
  by_cases hc : cid = ""
  · simp [hc]
  · cases hmt : mapGet s.timers tid with
    | none => simp [hc, hmt]
    | some t =>
      rcases hAdd : Timer.addDevice
          { t with maxConnectionsAllowed := mc.getD t.maxConnectionsAllowed } sid now
        with ⟨t2, wasAdded, msgs⟩
      cases wasAdded <;> simp [hc, hmt, hAdd]

theorem viewTimer_ct (s : ServerState) (sid tid cid : String)
    (mc : Option Int) (now : Int) :
    (handleViewTimer s sid tid cid mc now).1.controllerTimers = s.controllerTimers := by
  unfold handleViewTimer
  by_cases hc : cid = ""
  · simp [hc]
  · cases hmt : mapGet s.timers tid with
    | none => simp [hc, hmt]
    | some t =>
      rcases hAdd : Timer.addDevice
          { t with maxConnectionsAllowed := mc.getD t.maxConnectionsAllowed } sid now
        with ⟨t2, wasAdded, msgs⟩
      cases wasAdded <;> simp [hc, hmt, hAdd]

theorem disconnect_ct (s : ServerState) (sid : String) (now : Int) :
    (handleDisconnect s sid now).1.controllerTimers = s.controllerTimers := by
  unfold handleDisconnect
  cases hdt : mapGet s.deviceToTimer sid with
  | none => simp [hdt]
  | some tid =>
    cases hmt : mapGet s.timers tid with
    | none => simp [hdt, hmt]
    | some t =>
      rcases hrm : Timer.removeDevice t sid now with ⟨t', msgs⟩
      simp [hdt, hmt, hrm]

theorem tick_ct (s : ServerState) (tid : String) (now : Int) :
    (handleTick s tid now).1.controllerTimers = s.controllerTimers := by
  unfold handleTick
  cases hmt : mapGet s.timers tid with
  | none => simp [hmt]
  | some t =>
    by_cases hi : t.interval = true
    · rcases hup : Timer.update t now with ⟨t', msgs⟩
      simp [hmt, hi, hup]
    · simp [hmt, hi]

/-- The whole state after `create-timer`: unchanged (guard or quota), or the
fresh entry written to both the registry and the creator's owned set. -/
theorem createTimer_state_cases (s : ServerState) (sid name : String)
    (dur : Int) (mc mt : Option Int) (cid : String)
    (sty : Option StylingPayload) (ntid : String) (now : Int) :
    (handleCreateTimer s sid name dur mc mt cid sty ntid now).1 = s ∨
    ((handleCreateTimer s sid name dur mc mt cid sty ntid now).1.timers =
       mapSet (mapSet s.timers ntid (newStyledTimer name dur mc mt cid sty ntid))
         ntid (Timer.addDevice (newStyledTimer name dur mc mt cid sty ntid) sid now).1 ∧
     (handleCreateTimer s sid name dur mc mt cid sty ntid now).1.controllerTimers =
       mapSet s.controllerTimers cid
         (setAdd ((mapGet s.controllerTimers cid).getD []) ntid)) := by
  unfold handleCreateTimer
  by_cases hc : cid = ""
  · simp [hc]
  · by_cases hq : ((((mapGet s.controllerTimers cid).getD []).length : Int) ≥ mt.getD 3)
    · simp [hc, hq]
    · rcases hAdd : Timer.addDevice (newStyledTimer name dur mc mt cid sty ntid) sid now
        with ⟨t1, wasAdded, msgs⟩
      right
      constructor <;> simp [hc, hq, hAdd]

/-- The whole state after `delete-timer`: unchanged, or the owned entry
removed from the registry and filtered out of the owner's set. -/
theorem deleteTimer_state_cases (s : ServerState) (sid tid cid : String) :
    ((handleDeleteTimer s sid tid cid).1.timers = s.timers ∧
     (handleDeleteTimer s sid tid cid).1.controllerTimers = s.controllerTimers) ∨
    (∃ t, mapGet s.timers tid = some t ∧ t.controllerId = some cid ∧
      (handleDeleteTimer s sid tid cid).1.timers = mapDelete s.timers tid ∧
      (handleDeleteTimer s sid tid cid).1.controllerTimers =
        (match mapGet s.controllerTimers cid with
         | some l => mapSet s.controllerTimers cid (l.filter (· != tid))
         | none => s.controllerTimers)) := by
  unfold handleDeleteTimer
  by_cases hc : cid = ""
  · simp [hc]
  · cases hmt : mapGet s.timers tid with
    | none => simp [hc, hmt]
    | some t =>
      by_cases ho : t.controllerId = some cid
      · right
        refine ⟨t, rfl, ho, ?_, ?_⟩ <;>
          cases hct : mapGet s.controllerTimers cid <;> simp [hc, hmt, ho, hct]
      · simp [hc, hmt, ho]

theorem ownInv_create (s : ServerState) (sid name : String) (dur : Int)
    (mc mt : Option Int) (cid : String) (sty : Option StylingPayload)
    (ntid : String) (now : Int) (h : ownInv s)
    (hfresh : mapGet s.timers ntid = none) :
    ownInv (handleCreateTimer s sid name dur mc mt cid sty ntid now).1 := by
  rcases createTimer_state_cases s sid name dur mc mt cid sty ntid now with heq | ⟨htm, hct⟩
  · rw [heq]; exact h
  · intro c tid0 hmem
    rw [hct] at hmem
    rw [htm]
    by_cases hcc : c = cid
    · subst hcc
      rw [mapGet_mapSet_self] at hmem
      simp only [Option.getD_some] at hmem
      rcases mem_setAdd hmem with rfl | hold
      · refine ⟨(Timer.addDevice (newStyledTimer name dur mc mt c sty tid0) sid now).1,
          mapGet_mapSet_self _ _ _, ?_⟩
        rw [addDevice_controllerId, newStyledTimer_controllerId]
      · rcases h c tid0 hold with ⟨u, hu, huc⟩
        have hne : tid0 ≠ ntid := fun he => by rw [he, hfresh] at hu; exact Option.noConfusion hu
        refine ⟨u, ?_, huc⟩
        rw [mapGet_mapSet_ne _ _ hne, mapGet_mapSet_ne _ _ hne]
        exact hu
    · rw [mapGet_mapSet_ne _ _ hcc] at hmem
      rcases h c tid0 hmem with ⟨u, hu, huc⟩
      have hne : tid0 ≠ ntid := fun he => by rw [he, hfresh] at hu; exact Option.noConfusion hu
      refine ⟨u, ?_, huc⟩
      rw [mapGet_mapSet_ne _ _ hne, mapGet_mapSet_ne _ _ hne]
      exact hu

theorem ownInv_delete (s : ServerState) (sid tid cid : String) (h : ownInv s) :
    ownInv (handleDeleteTimer s sid tid cid).1 := by
  rcases deleteTimer_state_cases s sid tid cid with ⟨htm, hct⟩ | ⟨t, hmt, ho, htm, hct⟩
  · exact ownInv_of_same h htm hct
  · intro c tid0 hmem
    rw [hct] at hmem
    rw [htm]
    cases hctc : mapGet s.controllerTimers cid with
    | none =>
      rw [hctc] at hmem
      rcases h c tid0 hmem with ⟨u, hu, huc⟩
      have hne : tid0 ≠ tid := by
        intro he
        subst he
        have hut : u = t := Option.some.inj (hu.symm.trans hmt)
        have : c = cid :=
          Option.some.inj (huc.symm.trans (by rw [hut]; exact ho))
        subst this
        rw [hctc] at hmem
        simp at hmem
      refine ⟨u, ?_, huc⟩
      rw [mapGet_mapDelete_ne _ hne]
      exact hu
    | some l =>
      rw [hctc] at hmem
      by_cases hcc : c = cid
      · subst hcc
        rw [mapGet_mapSet_self] at hmem
        simp only [Option.getD_some] at hmem
        have hmem' := List.mem_filter.mp hmem
        have hne : tid0 ≠ tid := by
          have := hmem'.2
          simpa using this
        rcases h c tid0 (by rw [hctc]; exact hmem'.1) with ⟨u, hu, huc⟩
        refine ⟨u, ?_, huc⟩
        rw [mapGet_mapDelete_ne _ hne]
        exact hu
      · rw [mapGet_mapSet_ne _ _ hcc] at hmem
        rcases h c tid0 hmem with ⟨u, hu, huc⟩
        have hne : tid0 ≠ tid := by
          intro he
          subst he
          have hut : u = t := Option.some.inj (hu.symm.trans hmt)
          exact hcc (Option.some.inj (huc.symm.trans (by rw [hut]; exact ho)))
        refine ⟨u, ?_, huc⟩
        rw [mapGet_mapDelete_ne _ hne]
        exact hu

/-- Every well-formed command step preserves the ownership invariant. -/
theorem ownInv_step (s : ServerState) (c : Cmd) (now : Int)
    (h : ownInv s) (hok : CmdOK s c) : ownInv (step s c now).1 := by
  cases c with
  | joinTimer sid tid cid mc =>
    rcases joinTimer_timers_cases s sid tid cid mc now with heq | ⟨t, hmt, heq⟩
    · exact ownInv_of_same h heq (joinTimer_ct s sid tid cid mc now)
    · exact ownInv_of_write h hmt (by rw [addDevice_controllerId]) heq
        (joinTimer_ct s sid tid cid mc now)
  | viewTimer sid tid cid mc =>
    rcases viewTimer_timers_cases s sid tid cid mc now with heq | ⟨t, hmt, heq⟩
    · exact ownInv_of_same h heq (viewTimer_ct s sid tid cid mc now)
    · exact ownInv_of_write h hmt (by rw [addDevice_controllerId]) heq
        (viewTimer_ct s sid tid cid mc now)
  | createTimer sid name dur mc mt cid sty ntid =>
    exact ownInv_create s sid name dur mc mt cid sty ntid now h hok
  | getTimers sid cid =>
    have hid : (step s (.getTimers sid cid) now).1 = s := by
      by_cases hc : cid = "" <;> simp [step, hc]
    rw [hid]
    exact h
  | deleteTimer sid tid cid => exact ownInv_delete s sid tid cid h
  | setTimer sid tid dur cid =>
    rcases handleMutate_timers_cases s sid tid cid
        (fun t => Timer.setDuration t dur now) with heq | ⟨t, hmt, heq⟩
    · exact ownInv_of_same h heq (handleMutate_ct s sid tid cid _)
    · exact ownInv_of_write h hmt ((sameCore_setDuration t dur now).2.1) heq
        (handleMutate_ct s sid tid cid _)
  | startTimer sid tid cid =>
    rcases handleMutate_timers_cases s sid tid cid
        (fun t => Timer.start t now) with heq | ⟨t, hmt, heq⟩
    · exact ownInv_of_same h heq (handleMutate_ct s sid tid cid _)
    · exact ownInv_of_write h hmt ((sameCore_start t now).2.1) heq
        (handleMutate_ct s sid tid cid _)
  | pauseTimer sid tid cid =>
    rcases handleMutate_timers_cases s sid tid cid
        (fun t => Timer.pause t now) with heq | ⟨t, hmt, heq⟩
    · exact ownInv_of_same h heq (handleMutate_ct s sid tid cid _)
    · exact ownInv_of_write h hmt ((sameCore_pause t now).2.1) heq
        (handleMutate_ct s sid tid cid _)
  | resetTimer sid tid cid =>
    rcases handleMutate_timers_cases s sid tid cid
        (fun t => Timer.reset t now) with heq | ⟨t, hmt, heq⟩
    · exact ownInv_of_same h heq (handleMutate_ct s sid tid cid _)
    · exact ownInv_of_write h hmt ((sameCore_reset t now).2.1) heq
        (handleMutate_ct s sid tid cid _)
  | adjustTimer sid tid sec cid =>
    rcases handleMutate_timers_cases s sid tid cid
        (fun t => Timer.adjustTime t sec now) with heq | ⟨t, hmt, heq⟩
    · exact ownInv_of_same h heq (handleMutate_ct s sid tid cid _)
    · exact ownInv_of_write h hmt ((sameCore_adjustTime t sec now).2.1) heq
        (handleMutate_ct s sid tid cid _)
  | updateMessage sid tid m cid =>
    rcases handleMutate_timers_cases s sid tid cid
        (fun t => Timer.updateMessage t m now) with heq | ⟨t, hmt, heq⟩
    · exact ownInv_of_same h heq (handleMutate_ct s sid tid cid _)
    · exact ownInv_of_write h hmt ((sameCore_updateMessage t m now).2.1) heq
        (handleMutate_ct s sid tid cid _)
  | clearMessage sid tid cid =>
    rcases handleMutate_timers_cases s sid tid cid
        (fun t => Timer.clearMessage t now) with heq | ⟨t, hmt, heq⟩
    · exact ownInv_of_same h heq (handleMutate_ct s sid tid cid _)
    · exact ownInv_of_write h hmt ((sameCore_clearMessage t now).2.1) heq
        (handleMutate_ct s sid tid cid _)
  | updateStyling sid tid sty cid =>
    rcases handleMutate_timers_cases s sid tid cid
        (fun t => Timer.updateStyling t sty now) with heq | ⟨t, hmt, heq⟩
    · exact ownInv_of_same h heq (handleMutate_ct s sid tid cid _)
    · exact ownInv_of_write h hmt ((sameCore_updateStyling t sty now).2.1) heq
        (handleMutate_ct s sid tid cid _)
  | toggleFlash sid tid b cid =>
    rcases handleMutate_timers_cases s sid tid cid
        (fun t => Timer.toggleFlash t b now) with heq | ⟨t, hmt, heq⟩
    · exact ownInv_of_same h heq (handleMutate_ct s sid tid cid _)
    · exact ownInv_of_write h hmt ((sameCore_toggleFlash t b now).2.1) heq
        (handleMutate_ct s sid tid cid _)
  | disconnect sid =>
    rcases disconnect_timers_cases s sid now with heq | ⟨tid, t, hmt, heq⟩
    · exact ownInv_of_same h heq (disconnect_ct s sid now)
    · exact ownInv_of_write h hmt (removeDevice_controllerId t sid now) heq
        (disconnect_ct s sid now)
  | tick tid =>
    rcases tick_timers_cases s tid now with heq | ⟨t, hmt, heq⟩
    · exact ownInv_of_same h heq (tick_ct s tid now)
    · exact ownInv_of_write h hmt (update_controllerId t now) heq (tick_ct s tid now)

/-- Every reachable state satisfies the ownership invariant. -/
theorem reachable_ownInv {s : ServerState} (h : Reachable s) : ownInv s := by
  induction h with
  | init =>
    intro c tid hmem
    simp [initState, mapGet] at hmem
  | next hr hok ih => exact ownInv_step _ _ _ ih hok

/-- Does the summary belong to a timer of the controller's owned set whose
stored owner is that controller? -/
def summaryOwnedBy (s : ServerState) (c : String) (sum : TimerSummary) : Bool :=
  ((mapGet s.controllerTimers c).getD []).any fun tid =>
    match mapGet s.timers tid with
    | some t => decide (t.controllerId = some c) &&
        decide (sum = ⟨t.id, t.name, t.duration, t.connectedDevices.length⟩)
    | none => false

/-- C2: in every reachable state, every summary in the `get-timers` list for
controller `c` is the summary of a timer in `c`'s owned set whose stored
owner is `c` — regardless of which controller identities sessions supplied
when joining timers. -/
theorem claim_C2 (s : ServerState) (h : Reachable s) (c : String) :
    (getTimersForController s c).all (summaryOwnedBy s c) = true := by
  have hinv := reachable_ownInv h
  rw [List.all_eq_true]
  intro sum hsum
  unfold getTimersForController at hsum
  rw [List.mem_filterMap] at hsum
  rcases hsum with ⟨tid, htid, hmk⟩
  cases hmt : mapGet s.timers tid with
  | none => rw [hmt] at hmk; exact Option.noConfusion hmk
  | some t =>
    rw [hmt] at hmk
    have hs : sum = ⟨t.id, t.name, t.duration, t.connectedDevices.length⟩ :=
      (Option.some.inj hmk).symm
    rcases hinv c tid htid with ⟨u, hu, huc⟩
    have hut : u = t := Option.some.inj (hu.symm.trans hmt)
    subst hut
    unfold summaryOwnedBy
    rw [List.any_eq_true]
    refine ⟨tid, htid, ?_⟩
    rw [hmt]
    simp [huc, hs]

/-- Two timers created by two different controllers. -/
def c2WState : ServerState :=
  (step (step initState (.createTimer ("s0") ("A") 10 none none ("c1") none ("A")) 0).1
    (.createTimer ("s1") ("B") 10 none none ("c2") none ("B")) 0).1

theorem claim_C2_witness :
    (getTimersForController c2WState ("c1")).all (summaryOwnedBy c2WState ("c1")) = true :=
  claim_C2 c2WState
    (Reachable.next (Reachable.next Reachable.init (by rfl)) (by rfl)) ("c1")

end OnlineTimer
